import Mathlib

/-!
Verification development for the NetWordPingPong peer-to-peer word-game
server (`backend/app.py`).  The Python module is shallowly embedded:

* Python dicts become association lists (`List (K × V)`) with lookup,
  write and merge operations (`dget?`, `dget`, `dset`, `dupdate`, `ddel`)
  that mirror `dict.get`, item assignment, `dict.update` and `del`.
* Python floats become rationals (`ℚ`); all float operations used by the
  game (sums, products by dyadic constants, comparisons, `int(...)`
  truncation) are exact on the values the game produces, so `ℚ` is a
  faithful carrier.  `int(x)` is `pyInt` (truncation toward zero).
* `random.choice` / `random.randint` / network health checks are made
  explicit inputs (oracle parameters), so each endpoint handler is a pure
  function of the state, the request and the oracles.
* A Python statement that raises `HTTPException` aborts the handler with
  the mutations performed so far kept (FastAPI performs no rollback);
  handlers therefore return the state reached at the raise point together
  with the error.  An out-of-range list index (`history[-1]` on an empty
  list) is modeled as `none` ("crash").
-/

namespace NWPP

/-! ## Association-list model of Python dicts -/

/-- `d.get(k)`: first binding of `k`, if any. -/
def dget? {K V : Type} [DecidableEq K] : List (K × V) → K → Option V
  | [], _ => none
  | (k', v) :: t, k => if k' = k then some v else dget? t k

/-- `d.get(k, dflt)`. -/
def dget {K V : Type} [DecidableEq K] (d : List (K × V)) (k : K) (dflt : V) : V :=
  (dget? d k).getD dflt

/-- `d[k] = v`: replace the first binding of `k`, or append a new one. -/
def dset {K V : Type} [DecidableEq K] : List (K × V) → K → V → List (K × V)
  | [], k, v => [(k, v)]
  | (k', v') :: t, k, v => if k' = k then (k, v) :: t else (k', v') :: dset t k v

/-- `d.update(other)`: write every binding of `other` into `d`. -/
def dupdate {K V : Type} [DecidableEq K] (d other : List (K × V)) : List (K × V) :=
  other.foldl (fun acc kv => dset acc kv.1 kv.2) d

/-- `del d[k]`: drop the first binding of `k`. -/
def ddel {K V : Type} [DecidableEq K] : List (K × V) → K → List (K × V)
  | [], _ => []
  | (k', v') :: t, k => if k' = k then t else (k', v') :: ddel t k

/-- `list(set(a).union(set(b)))`: membership-faithful model of a Python set
union (Python's iteration order over a set is not semantically relevant). -/
def pyUnion {α : Type} [DecidableEq α] (a b : List α) : List α :=
  (a ++ b).dedup

/-- Python `int(q)` on a float: truncation toward zero.  On a normalised
rational this is T-division of numerator by denominator. -/
def pyInt (q : ℚ) : Int :=
  Int.tdiv q.num (q.den : Int)

/-! ## Game constants (`app.py`, module level) -/

def BASE_TIMEOUT_MS : Int := 15000
def MIN_TIMEOUT_MS : Int := 3000
def MAX_TIMEOUT_MS : Int := 60000

def VOWELS : List Char := ['a', 'e', 'i', 'o', 'u', 'y']
def VOWEL_POWER_RECHARGE_RATE : ℚ := 1/4
def MAX_VOWEL_POWER : ℚ := 2
def CURSE_THRESHOLD : Nat := 3
def RARE_LETTERS : List Char := ['k', 'w', 'x', 'y', 'z']

def PAD_CHARGE_THRESHOLD : Nat := 3

def LETTER_TO_PAD : List (Char × Char) :=
  [('a', '2'), ('b', '2'), ('c', '2'),
   ('d', '3'), ('e', '3'), ('f', '3'),
   ('g', '4'), ('h', '4'), ('i', '4'),
   ('j', '5'), ('k', '5'), ('l', '5'),
   ('m', '6'), ('n', '6'), ('o', '6'),
   ('p', '7'), ('q', '7'), ('r', '7'), ('s', '7'),
   ('t', '8'), ('u', '8'), ('v', '8'),
   ('w', '9'), ('x', '9'), ('y', '9'), ('z', '9')]

def PAD_COLUMNS : List (Char × List Char) :=
  [('*', ['7', '4']),
   ('0', ['2', '5', '8']),
   ('#', ['3', '6', '9'])]

/-- `get_new_phone_pad()`: `{str(i): 0 for i in range(2, 10)}`. -/
def get_new_phone_pad : List (Char × Nat) :=
  [('2', 0), ('3', 0), ('4', 0), ('5', 0), ('6', 0), ('7', 0), ('8', 0), ('9', 0)]

/-- `{v: 1.0 for v in VOWELS}`. -/
def defaultVowelPowers : List (Char × ℚ) :=
  VOWELS.map (fun v => (v, 1))

/-- The ten mission template identities of `ALL_MISSIONS`. -/
inductive MissionId : Type
  | suite_harmonique
  | mur_de_consonnes
  | echo_parfait
  | progression_alphabetique
  | symetrie_inversee
  | frappe_eclair
  | au_bord_du_precipice
  | pression_constante
  | coup_du_dictionnaire
  | union_forcee
  deriving DecidableEq, Repr, Inhabited

/-! ## Modifier tags

The Python code builds human-readable strings ("voyelle (50%)",
"recharge", "maudite", "combo #", "vitesse", "combo *", "power-up",
"mission:<name>").  Each distinct string shape becomes a constructor; the
vowel tag carries the power value that the string interpolates. -/

inductive Modifier : Type
  | voyelle (power : ℚ)
  | recharge
  | maudite
  | comboAttackMalus
  | vitesse
  | comboKey (k : Char)
  | powerUp
  | missionTag (id : MissionId)
  deriving DecidableEq, Repr

/-- `TimeCalculationLog` pydantic model. -/
structure TimeCalculationLog : Type where
  base_timeout : Int
  speed_bonus : ℚ
  vowel_bonus : ℚ
  cursed_malus : Bool
  pad_combo_malus : Bool
  final_timeout : Int
  deriving DecidableEq, Repr

/-! ## `calculate_next_timeout` (`app.py` lines 471–507) -/

/-- Faithful translation of `calculate_next_timeout`.  The Python function
reads no global state; its sequential float/list mutations are rendered as
a chain of lets.  `new_word[-1]` is partial in Python (empty word); every
call site passes a non-empty word, and the embedding totalises it with
`getLastD ' '` (the blank is not a vowel, hence behaves as a consonant). -/
def calculate_next_timeout (response_time_ms : Int) (new_word : List Char)
    (player_vowel_power : List (Char × ℚ)) (cursed_malus : Bool) (pad_combo_malus : Bool) :
    Int × List Modifier × List (Char × ℚ) × TimeCalculationLog :=
  let speed_bonus : ℚ := (5000 - (response_time_ms : ℚ)) * (3/2)
  let new_letter : Char := new_word.getLastD ' '
  -- the vowel / consonant branch yields (vowel_bonus, applied_multipliers,
  -- new_player_vowel_power)
  let vres : ℚ × List Modifier × List (Char × ℚ) :=
    if new_letter ∈ VOWELS then
      let power_before_use : ℚ := dget player_vowel_power new_letter 1
      let vowel_bonus : ℚ := -7500 * power_before_use
      (vowel_bonus,
       if vowel_bonus < 0 then [Modifier.voyelle power_before_use] else [],
       dset player_vowel_power new_letter (power_before_use / 2))
    else
      let rr : List (Char × ℚ) × Bool :=
        VOWELS.foldl
          (fun acc v =>
            if dget acc.1 v 1 < MAX_VOWEL_POWER then
              (dset acc.1 v (min MAX_VOWEL_POWER (dget acc.1 v 1 + VOWEL_POWER_RECHARGE_RATE)),
               true)
            else acc)
          (player_vowel_power, false)
      (0, if rr.2 then [Modifier.recharge] else [], rr.1)
  let final0 : ℚ := (BASE_TIMEOUT_MS : ℚ) + speed_bonus + vres.1
  let c1 : ℚ × List Modifier :=
    if cursed_malus then (final0 * (1/4), vres.2.1 ++ [Modifier.maudite]) else (final0, vres.2.1)
  let c2 : ℚ × List Modifier :=
    if pad_combo_malus then (c1.1 * (1/2), c1.2 ++ [Modifier.comboAttackMalus]) else c1
  let mult3 : List Modifier := if speed_bonus > 0 then c2.2 ++ [Modifier.vitesse] else c2.2
  let final3 : ℚ := max ((MIN_TIMEOUT_MS : Int) : ℚ) (min c2.1 ((MAX_TIMEOUT_MS : Int) : ℚ))
  (pyInt final3, mult3, vres.2.2,
   ⟨BASE_TIMEOUT_MS, speed_bonus, vres.1, cursed_malus, pad_combo_malus, pyInt final3⟩)

/-! ## History entries, missions and the game state record -/

/-- `HistoryEntry` pydantic model (pydantic validation copies the list
passed as `applied_multipliers`, so a later in-place append to the Python
local `modifiers` does not retroactively change an entry). -/
structure HistoryEntry : Type where
  player : String
  word : List Char
  response_time_ms : Int
  applied_multipliers : List Modifier
  timeout_log : Option TimeCalculationLog
  deriving DecidableEq, Repr, Inhabited

/-- A mission instance: template identity, `goal`, mutable `current_step`.
The three behaviour functions of the Python class are total functions of
the id (`progressMission`, `triggerMission`, `applyEffect` below). -/
structure Mission : Type where
  id : MissionId
  goal : Nat
  current_step : Nat
  deriving DecidableEq, Repr, Inhabited

/-- `goal=` arguments of the `ALL_MISSIONS` table. -/
def missionGoal : MissionId → Nat
  | .suite_harmonique => 3
  | .mur_de_consonnes => 4
  | .echo_parfait => 1
  | .progression_alphabetique => 1
  | .symetrie_inversee => 1
  | .frappe_eclair => 3
  | .au_bord_du_precipice => 1
  | .pression_constante => 1
  | .coup_du_dictionnaire => 1
  | .union_forcee => 1

/-- A fresh instance of a template (`Mission.copy` of a table entry). -/
def mkMission (i : MissionId) : Mission :=
  ⟨i, missionGoal i, 0⟩

/-- The ids of `ALL_MISSIONS`, in table order. -/
def ALL_MISSION_IDS : List MissionId :=
  [.suite_harmonique, .mur_de_consonnes, .echo_parfait, .progression_alphabetique,
   .symetrie_inversee, .frappe_eclair, .au_bord_du_precipice, .pression_constante,
   .coup_du_dictionnaire, .union_forcee]

/-- The mutable global `game_state` dict.  Only the keys read or written
by the operations modeled here are carried.  The armed `threading.Timer`
object is abstracted to the Boolean `game_timer` ("a timer is armed");
`cancel()` clears it. -/
structure GameState : Type where
  own_identifier : String
  players : List String
  turn_counts : List (String × Nat)
  ready_players : List String
  archive : List (List HistoryEntry)
  history : List HistoryEntry
  current_word : Option (List Char)
  game_timer : Bool
  turn_start_time : Option ℚ
  current_turn_timeout_ms : Option Int
  active_player : Option String
  player_vowel_powers : List (String × List (Char × ℚ))
  cursed_letters : List Char
  dead_letters : List Char
  player_phone_pads : List (String × List (Char × Nat))
  player_letter_counts : List (String × List (Char × Nat))
  player_max_timeouts : List (String × Int)
  player_inabilities : List (String × List Char)
  letter_curse_counts : List (Char × Nat)
  active_missions : List Mission
  completed_missions : List Mission
  last_loser : Option String
  attack_combo_player : Option String
  forced_letter : Option Char
  scramble_ui_for_player : Option String
  opponent_speed_multiplier : List (String × ℚ)
  base_timeout_modifier : ℚ
  deriving DecidableEq, Repr, Inhabited

/-- The `trigger_data` dict built by `pass_ball` for mission triggers. -/
structure TriggerData : Type where
  player_id : String
  new_letter : Char
  new_word : List Char
  response_time_ms : Int
  timeout_ms : Int
  history : List HistoryEntry
  letter_counts : List (Char × Nat)
  deriving Repr

/-- `progress_<mission>` functions.  `frappe_eclair` reads
`history[-1].response_time_ms` (the entry appended by the current
pass-ball, so the list is non-empty at the call site; the embedding
defaults to `0` on an empty history) and the player's max timeout. -/
def progressMission (s : GameState) (player_id : String) (new_letter : Char) (m : Mission) :
    Mission :=
  match m.id with
  | .suite_harmonique =>
      if new_letter ∈ VOWELS then { m with current_step := m.current_step + 1 }
      else { m with current_step := 0 }
  | .mur_de_consonnes =>
      if new_letter ∉ VOWELS then { m with current_step := m.current_step + 1 }
      else { m with current_step := 0 }
  | .frappe_eclair =>
      let response_time : Int := ((s.history.getLast?).map (fun e => e.response_time_ms)).getD 0
      let timeout : Int := dget s.player_max_timeouts player_id BASE_TIMEOUT_MS
      if (response_time : ℚ) < (timeout : ℚ) * (1/4) then { m with current_step := m.current_step + 1 }
      else { m with current_step := 0 }
  | _ => m

/-- `trigger_<mission>` functions, evaluated against `trigger_data`.
`echo_parfait` compares the last letters of the last two history words
(`word[-1]` is partial in Python on an empty word; history words are
always non-empty, and the embedding totalises with `getLastD ' '`). -/
def triggerMission (m : Mission) (td : TriggerData) : Bool :=
  match m.id with
  | .suite_harmonique => decide (m.goal ≤ m.current_step)
  | .mur_de_consonnes => decide (m.goal ≤ m.current_step)
  | .frappe_eclair => decide (m.goal ≤ m.current_step)
  | .echo_parfait =>
      match td.history.getLast?, td.history.dropLast.getLast? with
      | some e1, some e2 => decide (e1.word.getLastD ' ' = e2.word.getLastD ' ')
      | _, _ => false
  | .progression_alphabetique =>
      if td.new_word.length < 2 then false
      else decide ((td.new_word.getLastD ' ').toNat = (td.new_word.dropLast.getLastD ' ').toNat + 1)
  | .symetrie_inversee =>
      decide (1 < td.new_word.length ∧ td.new_word = td.new_word.reverse)
  | .au_bord_du_precipice =>
      decide ((td.timeout_ms : ℚ) * (9/10) < (td.response_time_ms : ℚ))
  | .pression_constante => decide (td.history.length % 10 = 0)
  | .coup_du_dictionnaire => decide (td.new_letter ∈ RARE_LETTERS)
  | .union_forcee => decide (td.new_letter = 'q')

/-- `effect_<mission>` functions (the state mutations performed by the
`await mission.effect_func(...)` calls; `echo_parfait`,
`symetrie_inversee` and `coup_du_dictionnaire` mutate nothing there).
`progression_alphabetique` indexes `[p for p in players if p != me][0]`,
partial in Python when the current player is the only one; the embedding
takes `head?`. -/
def applyEffect (m : Mission) (current_player_id : String) (s : GameState) : GameState :=
  match m.id with
  | .suite_harmonique =>
      { s with opponent_speed_multiplier := dset s.opponent_speed_multiplier current_player_id (13/10) }
  | .mur_de_consonnes =>
      { s with player_max_timeouts := dset s.player_max_timeouts current_player_id
                (pyInt (((dget s.player_max_timeouts current_player_id BASE_TIMEOUT_MS : Int) : ℚ) * (3/2))) }
  | .echo_parfait => s
  | .progression_alphabetique =>
      { s with scramble_ui_for_player := (s.players.filter (fun p => p ≠ current_player_id)).head? }
  | .symetrie_inversee => s
  | .frappe_eclair =>
      { s with opponent_speed_multiplier := dset s.opponent_speed_multiplier current_player_id (6/5) }
  | .au_bord_du_precipice =>
      { s with player_max_timeouts := dset s.player_max_timeouts current_player_id MAX_TIMEOUT_MS }
  | .pression_constante => { s with base_timeout_modifier := 1/2 }
  | .coup_du_dictionnaire => s
  | .union_forcee => { s with forced_letter := some 'u' }

/-- `replace_triggered_mission`: move the triggered mission to
`completed_missions` and append a fresh instance of a template whose id is
not yet in play, when one remains.  `random.choice` over the available
templates is the oracle `pick` (an answer outside the available set is
coerced to the first available template). -/
def replaceTriggered (pick : List MissionId → Option MissionId) (m : Mission) (s : GameState) :
    GameState :=
  let s1 := { s with
    active_missions := s.active_missions.filter (fun x => x.id ≠ m.id),
    completed_missions := s.completed_missions ++ [m] }
  let currentIds := (s1.active_missions.map Mission.id) ++ (s1.completed_missions.map Mission.id)
  let available := ALL_MISSION_IDS.filter (fun i => i ∉ currentIds)
  if available.isEmpty then s1
  else
    let chosen0 := (pick available).getD (available.headD MissionId.suite_harmonique)
    let chosen := if chosen0 ∈ available then chosen0 else available.headD MissionId.suite_harmonique
    { s1 with active_missions := s1.active_missions ++ [mkMission chosen] }

/-! ## `reset_local_game_state` and `end_turn` -/

/-- `reset_local_game_state()`: cancel the timer and clear the turn-local
fields. -/
def resetLocal (s : GameState) : GameState :=
  { s with
    game_timer := false,
    current_word := none,
    current_turn_timeout_ms := none,
    active_player := none,
    forced_letter := none,
    scramble_ui_for_player := none,
    opponent_speed_multiplier := [],
    base_timeout_modifier := 1 }

/-- The next-holder election of `end_turn` (`app.py` lines 685–716),
together with the state mutations of the `mirror_move` branch.  The
randomized health-checked walk over the minimum-turn-count candidates is
abstracted by `oracle`: the code returns either a live member of
`players ∖ {current}` or, when none answers, the current player; the
oracle names the elected peer and is coerced to `current` when it is not a
candidate.  Returns `none` where Python would raise `IndexError`
(`[p for p in players if p != current][0]` on a ricochet with no
opponent). -/
def endTurnElect (s : GameState) (current_player_id : String) (ricochet mirror_move : Bool)
    (oracle : String) : Option (GameState × String) :=
  if mirror_move then
    if 1 < s.history.length then
      let h' := s.history.dropLast
      match h'.getLast? with
      | some e => some ({ s with history := h', current_word := some e.word }, e.player)
      | none => none
    else
      some (s, current_player_id)
  else if ricochet then
    match (s.players.filter (fun p => p ≠ current_player_id)).head? with
    | some p => some (s, p)
    | none => none
  else
    let other_players := s.players.filter (fun p => p ≠ current_player_id)
    if "computer" ∈ other_players then some (s, "computer")
    else if other_players.isEmpty then some (s, current_player_id)
    else some (s, if oracle ∈ other_players then oracle else current_player_id)

/-- The post-election half of `end_turn` (`app.py` lines 718–761): turn
counts, next holder's timeout, inability hand-over, late modifier tags on
the last history entry, then `reset_local_game_state`.  Returns `none`
where Python raises `IndexError` on `history[-1]` (empty history). -/
def endTurnUpdates (s : GameState) (current_player_id next_player_identifier : String)
    (timeout_for_next_player : Int) (new_inabilities : List Char)
    (applied_modifiers : List Modifier) : Option GameState :=
  let s2 := { s with
    turn_counts := dset s.turn_counts next_player_identifier
                     (dget s.turn_counts next_player_identifier 0 + 1),
    active_player := some next_player_identifier,
    player_max_timeouts := dset s.player_max_timeouts next_player_identifier
                             timeout_for_next_player }
  let next_player_inabilities := dget s2.player_inabilities next_player_identifier []
  let s4 := { s2 with player_inabilities := dset s2.player_inabilities next_player_identifier
                                              (pyUnion next_player_inabilities new_inabilities) }
  let s5 := { s4 with player_inabilities := dset s4.player_inabilities current_player_id [] }
  -- Python reads `history[-1]` in the applied-modifiers block (when the
  -- tag list is non-empty) and again for `next_payload`; with an empty
  -- history either read raises `IndexError`, so the call fails exactly
  -- when the history is empty.  The dispatch itself is asynchronous I/O
  -- and not part of the state transition.
  match s5.history.getLast? with
  | none => none
  | some e =>
    let s6 :=
      if applied_modifiers.isEmpty then s5
      else { s5 with history := s5.history.dropLast ++
               [{ e with applied_multipliers := e.applied_multipliers ++ applied_modifiers }] }
    some (resetLocal s6)

/-- `end_turn` (`app.py` lines 683–761). -/
def end_turn (s : GameState) (current_player_id : String) (timeout_for_next_player : Int)
    (new_inabilities : List Char) (applied_modifiers : List Modifier)
    (ricochet mirror_move : Bool) (oracle : String) : Option GameState :=
  match endTurnElect s current_player_id ricochet mirror_move oracle with
  | none => none
  | some (s1, next_player_identifier) =>
    endTurnUpdates s1 current_player_id next_player_identifier timeout_for_next_player
      new_inabilities applied_modifiers

/-! ## Game reset (`reset_full_game_state_and_broadcast`, lines 378–397) -/

/-- Full reset after game-over: local turn reset plus reinitialisation of
every modifier substructure from `players`. -/
def resetFullGame (s : GameState) : GameState :=
  let s1 := resetLocal s
  { s1 with
    ready_players := [],
    history := [],
    player_vowel_powers := s1.players.map (fun p => (p, defaultVowelPowers)),
    cursed_letters := [],
    dead_letters := [],
    player_phone_pads := s1.players.map (fun p => (p, get_new_phone_pad)),
    player_letter_counts := s1.players.map (fun p => (p, [])),
    player_max_timeouts := s1.players.map (fun p => (p, BASE_TIMEOUT_MS)),
    player_inabilities := s1.players.map (fun p => (p, [])),
    active_missions := [],
    completed_missions := [],
    forced_letter := none,
    scramble_ui_for_player := none,
    opponent_speed_multiplier := [],
    base_timeout_modifier := 1,
    letter_curse_counts := [] }

/-- The `game_over` endpoint (lines 1102–1113): a no-op when no game is
in flight (`current_word` is `None` and the history is empty), otherwise
it records the loser, archives a non-empty history and runs the full
reset. -/
def game_over (s : GameState) (loser : String) : GameState :=
  if s.current_word = none ∧ s.history = [] then s
  else
    let s1 := { s with last_loser := some loser }
    let s2 := if s1.history.isEmpty then s1
              else { s1 with archive := s1.archive ++ [s1.history] }
    resetFullGame s2

/-! ## `pass_ball` (`app.py` lines 984–1100) -/

/-- The error statuses `pass_ball` can raise. -/
inductive PBErr : Type
  | noTurn
  | invalidWord
  | forcedMismatch (forced : Char)
  | blocked (letter : Char)
  deriving DecidableEq, Repr

/-- Exit of the precondition prefix of `pass_ball`: an HTTP error (with
the state at the raise point) or the dead-letter instant loss. -/
inductive PBExit : Type
  | httpErr (e : PBErr) (s : GameState)
  | deadLetter (s : GameState)
  deriving DecidableEq, Repr

/-- The state carried by a precondition exit. -/
def PBExit.state : PBExit → GameState
  | .httpErr _ s => s
  | .deadLetter s => s

/-- Result of a full `pass_ball` request. -/
inductive PBResult : Type
  | err (e : PBErr) (s : GameState)
  | deadLetterLoss (s : GameState)
  | ok (s : GameState)
  | crash
  deriving DecidableEq, Repr

/-- The state carried by a `PBResult` (`crash` falls back to `d`). -/
def PBResult.stateD (r : PBResult) (d : GameState) : GameState :=
  match r with
  | .err _ s => s
  | .deadLetterLoss s => s
  | .ok s => s
  | .crash => d

/-- `P` holds of the state of every non-crash outcome. -/
def PBResult.allStates (P : GameState → Prop) : PBResult → Prop
  | .err _ s => P s
  | .deadLetterLoss s => P s
  | .ok s => P s
  | .crash => True

/-- `P` holds of the state of every surviving (HTTP-error or committed)
outcome; the dead-letter loss ends the game and is exempt. -/
def PBResult.survivorStates (P : GameState → Prop) : PBResult → Prop
  | .err _ s => P s
  | .deadLetterLoss _ => True
  | .ok s => P s
  | .crash => True

/-- The precondition prefix of `pass_ball` (lines 986–1012): 408 when no
turn is in flight, 400 on a non-extension word, timer cancellation, 400 on
a forced-letter mismatch, clearing `forced_letter`, the dead-letter
instant loss, 403 on a blocked letter.  Mutations made before a raise
persist (no rollback). -/
def passBallCheck (s0 : GameState) (newWord : List Char) :
    Except PBExit (GameState × Char) :=
  match s0.current_word with
  | none => .error (.httpErr .noTurn s0)
  | some current_word =>
    if ¬ (current_word.isPrefixOf newWord ∧ newWord.length = current_word.length + 1) then
      .error (.httpErr .invalidWord s0)
    else
      -- `game_state["game_timer"].cancel()`
      let s1 := { s0 with game_timer := false }
      let new_letter := newWord.getLastD ' '
      match s1.forced_letter with
      | some f =>
        if new_letter ≠ f then .error (.httpErr (.forcedMismatch f) s1)
        else
          let s2 := { s1 with forced_letter := none }
          if new_letter ∈ s2.dead_letters then .error (.deadLetter s2)
          else if new_letter ∈ dget s2.player_inabilities s2.own_identifier [] then
            .error (.httpErr (.blocked new_letter) s2)
          else .ok (s2, new_letter)
      | none =>
        let s2 := { s1 with forced_letter := none }
        if new_letter ∈ s2.dead_letters then .error (.deadLetter s2)
        else if new_letter ∈ dget s2.player_inabilities s2.own_identifier [] then
          .error (.httpErr (.blocked new_letter) s2)
        else .ok (s2, new_letter)

/-- `response_time_ms` computation (lines 1016–1019).  `now` stands for
`time.time()` in the fallback branch.  When the `current_turn_timeout_ms`
key holds `None` Python would fail on the arithmetic; after any
`receive_ball` it holds the payload timeout, and the embedding defaults to
`BASE_TIMEOUT_MS` as the `.get` default does for a missing key. -/
def computeResponseTime (s : GameState) (client_timestamp_ms now : ℚ) : Int :=
  let turn_start_time : ℚ :=
    match s.turn_start_time with
    | some t => t
    | none => now - ((s.current_turn_timeout_ms.getD BASE_TIMEOUT_MS : Int) : ℚ) / 1000
  pyInt ((client_timestamp_ms / 1000 - turn_start_time) * 1000)

/-- Cursed-letter handling (lines 1021–1028): lift the curse, reset the
player's pad, zero this letter's count for every player that has it. -/
def applyCursedMalus (s : GameState) (my_id : String) (new_letter : Char) :
    GameState × Bool :=
  if new_letter ∈ s.cursed_letters then
    ({ s with
        cursed_letters := s.cursed_letters.erase new_letter,
        player_phone_pads := dset s.player_phone_pads my_id get_new_phone_pad,
        player_letter_counts := s.player_letter_counts.map
          (fun pc => (pc.1, if (dget? pc.2 new_letter).isSome then dset pc.2 new_letter 0 else pc.2)) },
     true)
  else (s, false)

/-- Phone-pad increment (lines 1030–1034).  `my_pad[pad_number]` raises
`KeyError` in Python only if an imported pad lacks a column key; pads
created by the code always hold all eight keys, and the embedding defaults
a missing column to 0. -/
def applyPadIncrement (s : GameState) (my_id : String) (new_letter : Char) : GameState :=
  match dget? LETTER_TO_PAD new_letter with
  | none => s
  | some pad_number =>
    let my_pad := dget s.player_phone_pads my_id get_new_phone_pad
    let my_pad' :=
      if dget my_pad pad_number 0 < PAD_CHARGE_THRESHOLD then
        dset my_pad pad_number (dget my_pad pad_number 0 + 1)
      else my_pad
    { s with player_phone_pads := dset s.player_phone_pads my_id my_pad' }

/-- Attack-combo malus (lines 1036–1040). -/
def applyAttackCombo (s : GameState) (my_id : String) : GameState × Bool :=
  if s.attack_combo_player = some my_id then
    ({ s with attack_combo_player := none }, true)
  else (s, false)

/-- Letter-count bump and `curse → dead` escalation (lines 1048–1064). -/
def applyCurseEscalation (s : GameState) (my_id : String) (new_letter : Char) : GameState :=
  let my_counts0 := dget s.player_letter_counts my_id []
  let cnt := dget my_counts0 new_letter 0 + 1
  let counts1 := dset s.player_letter_counts my_id (dset my_counts0 new_letter cnt)
  let s9 := { s with player_letter_counts := counts1 }
  if CURSE_THRESHOLD ≤ cnt then
    let curse_count := dget s9.letter_curse_counts new_letter 0
    let sA :=
      if curse_count = 0 then
        { s9 with
          cursed_letters :=
            if new_letter ∈ s9.cursed_letters then s9.cursed_letters
            else s9.cursed_letters ++ [new_letter],
          letter_curse_counts := dset s9.letter_curse_counts new_letter 1 }
      else if curse_count = 1 then
        { s9 with
          cursed_letters := s9.cursed_letters.erase new_letter,
          dead_letters :=
            if new_letter ∈ s9.dead_letters then s9.dead_letters
            else s9.dead_letters ++ [new_letter],
          letter_curse_counts := dset s9.letter_curse_counts new_letter 2 }
      else s9
    let counts2 := dset sA.player_letter_counts my_id
                     (dset (dget sA.player_letter_counts my_id []) new_letter 0)
    { sA with player_letter_counts := counts2 }
  else s9

/-- One iteration of the triggered-missions loop (lines 1085–1090):
effect, replacement, tag, ricochet / mirror flags. -/
def missionStep (pick : List MissionId → Option MissionId) (my_id : String)
    (acc : GameState × List Modifier × Bool × Bool) (m : Mission) :
    GameState × List Modifier × Bool × Bool :=
  let st1 := applyEffect m my_id acc.1
  let st2 := replaceTriggered pick m st1
  (st2, acc.2.1 ++ [Modifier.missionTag m.id],
   acc.2.2.1 || decide (m.id = MissionId.echo_parfait),
   acc.2.2.2 || decide (m.id = MissionId.symetrie_inversee))

/-- One-shot opponent-speed divisor (lines 1092–1094): truthy lookup,
integer division, deletion. -/
def applySpeedMultiplier (s : GameState) (my_id : String) (next_timeout : Int) :
    Int × GameState :=
  match dget? s.opponent_speed_multiplier my_id with
  | some mult =>
    if mult ≠ 0 then
      (pyInt ((next_timeout : ℚ) / mult),
       { s with opponent_speed_multiplier := ddel s.opponent_speed_multiplier my_id })
    else (next_timeout, s)
  | none => (next_timeout, s)

/-- Lines 1014–1046 of the committed path of `pass_ball`: inability
clear, response-time computation, cursed-malus handling, pad increment,
attack-combo malus, timeout calculation, vowel-power persist and history
append.  Returns the state together with `response_time_ms`, the computed
`next_timeout` and the modifier tags. -/
def pbClearInabilities (s : GameState) : GameState :=
  { s with player_inabilities := dset s.player_inabilities s.own_identifier [] }

def pbPrefix (s2 : GameState) (newWord : List Char) (new_letter : Char)
    (client_timestamp_ms now : ℚ) : GameState × Int × Int × List Modifier :=
  let my_id := s2.own_identifier
  let s3 := pbClearInabilities s2
  let response_time_ms := computeResponseTime s3 client_timestamp_ms now
  let cm := applyCursedMalus s3 my_id new_letter
  let s5 := applyPadIncrement cm.1 my_id new_letter
  let ac := applyAttackCombo s5 my_id
  let my_vowel_power := dget ac.1.player_vowel_powers my_id defaultVowelPowers
  let r := calculate_next_timeout response_time_ms newWord my_vowel_power cm.2 ac.2
  let s7 := { ac.1 with player_vowel_powers := dset ac.1.player_vowel_powers my_id r.2.2.1 }
  let entry : HistoryEntry := ⟨my_id, newWord, response_time_ms, r.2.1, some r.2.2.2⟩
  let s8 := { s7 with history := s7.history ++ [entry] }
  (s8, response_time_ms, r.1, r.2.1)

/-- The committed path of `pass_ball` (lines 1014–1098), given that the
precondition prefix produced `(s2, new_letter)`: `pbPrefix`, curse
escalation, mission progress, trigger evaluation and effects, speed
multiplier, base-timeout decay and `end_turn`. -/
def passBallCommit (s2 : GameState) (newWord : List Char) (new_letter : Char)
    (client_timestamp_ms now : ℚ) (pick : List MissionId → Option MissionId)
    (oracle : String) : Option GameState :=
  let my_id := s2.own_identifier
  let pre := pbPrefix s2 newWord new_letter client_timestamp_ms now
  let s10 := applyCurseEscalation pre.1 my_id new_letter
  let s11 := { s10 with active_missions :=
    s10.active_missions.map (progressMission s10 my_id new_letter) }
  let td : TriggerData :=
    ⟨my_id, new_letter, newWord, pre.2.1,
     s11.current_turn_timeout_ms.getD BASE_TIMEOUT_MS, s11.history,
     dget s11.player_letter_counts my_id []⟩
  let triggered := s11.active_missions.filter (fun m => triggerMission m td)
  let acc := triggered.foldl (missionStep pick my_id) (s11, pre.2.2.2, false, false)
  let sm := applySpeedMultiplier acc.1 my_id pre.2.2.1
  let next_timeout := pyInt ((sm.1 : ℚ) * sm.2.base_timeout_modifier)
  end_turn sm.2 my_id next_timeout [] acc.2.1 acc.2.2.1 acc.2.2.2 oracle

/-- `pass_ball`: precondition prefix then committed path.  The
dead-letter branch broadcasts game-over and then awaits the local
`game_over` endpoint inside the same request (line 1008), so the state
it leaves behind is the post-`game_over` state (loser recorded, history
archived, full reset). -/
def pass_ball (s : GameState) (newWord : List Char) (client_timestamp_ms now : ℚ)
    (pick : List MissionId → Option MissionId) (oracle : String) : PBResult :=
  match passBallCheck s newWord with
  | .error (.httpErr e s') => .err e s'
  | .error (.deadLetter s') => .deadLetterLoss (game_over s' s'.own_identifier)
  | .ok (s2, new_letter) =>
    match passBallCommit s2 newWord new_letter client_timestamp_ms now pick oracle with
    | some s' => .ok s'
    | none => .crash

/-! ## Computer opponent (`play_computer_turn_and_return`, lines 596–650) -/

/-- The state updates of the computer's turn, between the random choices
(letter, `response_time_ms = random.randint(300, 900)`) and the final
local `receive_ball` call: timeout calculation from the computer's vowel
power, vowel-power persist, the human's next timeout, history entry,
turn-count bump and active-player switch.  Returns the updated state and
the new word sent back to the human. -/
def playComputerCore (s : GameState) (ball_word : List Char) (new_letter : Char)
    (response_time_ms : Int) : GameState × List Char :=
  let computer_id := "computer"
  let human_player_id := s.own_identifier
  let computer_new_word := ball_word ++ [new_letter]
  let computer_vowel_power := dget s.player_vowel_powers computer_id defaultVowelPowers
  let r := calculate_next_timeout response_time_ms computer_new_word computer_vowel_power
             false false
  let s1 := { s with player_vowel_powers := dset s.player_vowel_powers computer_id r.2.2.1 }
  let s2 := { s1 with player_max_timeouts := dset s1.player_max_timeouts human_player_id r.1 }
  let entry : HistoryEntry :=
    ⟨computer_id, computer_new_word, response_time_ms, r.2.1, some r.2.2.2⟩
  let s3 := { s2 with history := s2.history ++ [entry] }
  let s4 := { s3 with turn_counts := dset s3.turn_counts computer_id
                        (dget s3.turn_counts computer_id 0 + 1) }
  let s5 := { s4 with active_player := some human_player_id }
  (s5, computer_new_word)

/-! ## `register` (lines 835–884) -/

/-- `RegisterPayload` pydantic model.  Incoming mission dicts carry an id
and a `current_step`; ids that match no template are discarded by the
reconstruction, so the payload is modeled with template ids. -/
structure RegisterPayload : Type where
  ip : String
  initialPlayers : List String
  initialTurnCounts : List (String × Nat)
  initialReadyPlayers : List String
  initialArchive : List (List HistoryEntry)
  initialPlayerVowelPowers : List (String × List (Char × ℚ))
  initialCursedLetters : List Char
  initialDeadLetters : List Char
  initialPlayerPhonePads : List (String × List (Char × Nat))
  initialPlayerLetterCounts : List (String × List (Char × Nat))
  initialPlayerMaxTimeouts : List (String × Int)
  initialPlayerInabilities : List (String × List Char)
  initialActiveMissions : List (MissionId × Nat)
  initialCompletedMissions : List MissionId
  initialLetterCurseCounts : List (Char × Nat)
  deriving Repr, Inhabited

/-- The state merge of the `register` endpoint (the scheduled
`register_back` is outbound I/O). -/
def register (s : GameState) (p : RegisterPayload) : GameState :=
  let s1 :=
    if p.ip ≠ "" ∧ p.ip ∉ s.players then
      { s with
        players := s.players ++ [p.ip],
        turn_counts := if (dget? s.turn_counts p.ip).isSome then s.turn_counts
                       else s.turn_counts ++ [(p.ip, 0)],
        player_vowel_powers := dset s.player_vowel_powers p.ip defaultVowelPowers,
        player_phone_pads := dset s.player_phone_pads p.ip get_new_phone_pad,
        player_letter_counts := dset s.player_letter_counts p.ip [],
        player_max_timeouts := dset s.player_max_timeouts p.ip BASE_TIMEOUT_MS,
        player_inabilities := dset s.player_inabilities p.ip [] }
    else s
  let s2 := { s1 with
    players := pyUnion s1.players p.initialPlayers,
    turn_counts := dupdate s1.turn_counts p.initialTurnCounts,
    ready_players := pyUnion s1.ready_players p.initialReadyPlayers }
  let s3 := if s2.archive.length < p.initialArchive.length then
              { s2 with archive := p.initialArchive }
            else s2
  let s4 := { s3 with
    player_vowel_powers := dupdate s3.player_vowel_powers p.initialPlayerVowelPowers,
    cursed_letters := pyUnion s3.cursed_letters p.initialCursedLetters,
    dead_letters := pyUnion s3.dead_letters p.initialDeadLetters,
    player_phone_pads := dupdate s3.player_phone_pads p.initialPlayerPhonePads,
    player_letter_counts := dupdate s3.player_letter_counts p.initialPlayerLetterCounts,
    player_max_timeouts := dupdate s3.player_max_timeouts p.initialPlayerMaxTimeouts,
    player_inabilities := dupdate s3.player_inabilities p.initialPlayerInabilities }
  let incomingActive :=
    p.initialActiveMissions.map (fun im => { mkMission im.1 with current_step := im.2 })
  let s5 := if p.initialActiveMissions.isEmpty then s4
            else { s4 with active_missions := incomingActive }
  let s6 := if p.initialCompletedMissions.isEmpty then s5
            else { s5 with completed_missions := p.initialCompletedMissions.map mkMission }
  { s6 with letter_curse_counts := dupdate s6.letter_curse_counts p.initialLetterCurseCounts }

/-! ## Readiness (`im_ready` lines 886–917, `notify_ready` lines 919–935) -/

/-- `sorted(list(known_players))[0]`: lexicographic minimum. -/
def minString (l : List String) : String :=
  l.foldl (fun a b => if b < a then b else a) (l.headD "")

/-- The game-start condition shared by both readiness endpoints:
`known_players ⊆ ready_players`, at least one ready player, and no turn in
flight. -/
def startCond (s : GameState) : Prop :=
  (∀ p ∈ s.players, p ∈ s.ready_players) ∧ s.ready_players ≠ [] ∧ s.current_word = none

instance (s : GameState) : Decidable (startCond s) := by
  unfold startCond; infer_instance

/-- The state mutations of `im_ready` together with whether
`start_game_logic` is invoked.  When the peer is alone it injects the
`"computer"` opponent; otherwise it broadcasts `notify-ready` (outbound
I/O, no local mutation). -/
def im_ready (s : GameState) : GameState × Bool :=
  let my_id := s.own_identifier
  let s1 := if my_id ∈ s.ready_players then s
            else { s with ready_players := s.ready_players ++ [my_id] }
  let s2 :=
    if s1.players.length = 1 ∧ s1.players.headD "" = my_id then
      let s2a :=
        if "computer" ∈ s1.players then s1
        else
          { s1 with
            players := s1.players ++ ["computer"],
            turn_counts := dset s1.turn_counts "computer" 0,
            player_vowel_powers := dset s1.player_vowel_powers "computer" defaultVowelPowers,
            player_phone_pads := dset s1.player_phone_pads "computer" get_new_phone_pad,
            player_letter_counts := dset s1.player_letter_counts "computer" [],
            player_max_timeouts := dset s1.player_max_timeouts "computer" BASE_TIMEOUT_MS,
            player_inabilities := dset s1.player_inabilities "computer" [] }
      if "computer" ∈ s2a.ready_players then s2a
      else { s2a with ready_players := s2a.ready_players ++ ["computer"] }
    else s1
  let starts :=
    decide (startCond s2) &&
      (decide (my_id = minString s2.players) || decide ("computer" ∈ s2.players))
  (s2, starts)

/-- The state mutations of `notify_ready` together with whether
`start_game_logic` is invoked. -/
def notify_ready (s : GameState) (player_id : String) : GameState × Bool :=
  let s1 := if player_id ∈ s.ready_players then s
            else { s with ready_players := s.ready_players ++ [player_id] }
  let starts := decide (startCond s1) && decide (s.own_identifier = minString s1.players)
  (s1, starts)

/-! ## `trigger_combo` (lines 794–833) -/

/-- Result of the combo endpoint: the three HTTP errors, success carrying
the state after `end_turn`, or the crash propagated from `end_turn`. -/
inductive ComboResult : Type
  | invalidKey
  | padNotFound
  | notReady
  | ok (s : GameState)
  | crash
  deriving DecidableEq, Repr

/-- `trigger_combo`: key validation, readiness check over the key's
columns, the three effects, column reset, and `end_turn` with
`BASE_TIMEOUT_MS`.  (`'0'` writes through `player_vowel_powers[my_id]`,
which raises `KeyError` in Python when the key is absent; the embedding
defaults to the fresh vowel map.) -/
def trigger_combo (s : GameState) (combo_key : Char) (oracle : String) : ComboResult :=
  let my_id := s.own_identifier
  if (dget? PAD_COLUMNS combo_key).isNone then .invalidKey
  else
    match dget? s.player_phone_pads my_id with
    | none => .padNotFound
    | some my_pad =>
      -- `if not my_pad:` — Python truthiness, so a present but empty pad
      -- dict also raises the 404
      if my_pad.isEmpty then .padNotFound
      else
      let column_nums := dget PAD_COLUMNS combo_key []
      if ¬ column_nums.all (fun num => 1 ≤ dget my_pad num 0) then .notReady
      else
        let new_inabilities : List Char :=
          if combo_key = '#' then
            column_nums.foldl
              (fun acc num =>
                LETTER_TO_PAD.foldl
                  (fun a lp => if lp.2 = num ∧ lp.1 ∉ a then a ++ [lp.1] else a) acc)
              []
          else []
        let rechargedPowers :=
          dset s.player_vowel_powers my_id
            (VOWELS.foldl (fun m v => dset m v MAX_VOWEL_POWER)
              (dget s.player_vowel_powers my_id defaultVowelPowers))
        let s1 :=
          if combo_key = '*' then { s with cursed_letters := [] }
          else if combo_key = '0' then { s with player_vowel_powers := rechargedPowers }
          else s
        let my_pad' := column_nums.foldl
          (fun pd num => if (dget? pd num).isSome then dset pd num 0 else pd) my_pad
        let s2 := { s1 with player_phone_pads := dset s1.player_phone_pads my_id my_pad' }
        match end_turn s2 my_id BASE_TIMEOUT_MS new_inabilities [Modifier.comboKey combo_key]
                false false oracle with
        | some s' => .ok s'
        | none => .crash

/-! ## The dead-letter / curse invariant -/

/-- Spec invariant 3: a dead letter is not cursed and its escalation count
is 2. -/
def deadCurseInv (s : GameState) : Prop :=
  ∀ l ∈ s.dead_letters, l ∉ s.cursed_letters ∧ dget s.letter_curse_counts l 0 = 2

instance (s : GameState) : Decidable (deadCurseInv s) := by
  unfold deadCurseInv; infer_instance

/-! ## Concrete states used by counterexamples and witnesses -/

/-- A minimal solo in-turn state: own peer `"h"` holds the word `"a"`,
with a timer armed and all modifier substate at its initial values. -/
def baseState : GameState :=
  { own_identifier := "h"
    players := ["h"]
    turn_counts := [("h", 1)]
    ready_players := ["h"]
    archive := []
    history := []
    current_word := some ['a']
    game_timer := true
    turn_start_time := some 0
    current_turn_timeout_ms := some 15000
    active_player := some "h"
    player_vowel_powers := [("h", defaultVowelPowers)]
    cursed_letters := []
    dead_letters := []
    player_phone_pads := [("h", get_new_phone_pad)]
    player_letter_counts := [("h", [])]
    player_max_timeouts := [("h", 15000)]
    player_inabilities := [("h", [])]
    letter_curse_counts := []
    active_missions := []
    completed_missions := []
    last_loser := none
    attack_combo_player := none
    forced_letter := none
    scramble_ui_for_player := none
    opponent_speed_multiplier := []
    base_timeout_modifier := 1 }

/-- The oracle answering `none` (no mission replacement preference). -/
def pickNone : List MissionId → Option MissionId := fun _ => none

/-- C1 counterexample state: a forced letter is pending and a deadline
timer is armed. -/
def c1State : GameState := { baseState with forced_letter := some 'u' }

/-- C1 witness state: no turn in flight. -/
def c1WitnessState : GameState := { baseState with current_word := none }

/-- C3 counterexample state: the letter `'a'` is cursed at escalation
level 1 (`deadCurseInv` holds: no dead letter). -/
def c3State : GameState :=
  { baseState with cursed_letters := ['a'], letter_curse_counts := [('a', 1)] }

/-- C3 counterexample payload: a peer for whom `'a'` is already dead
(level 2) — its own invariant also holds. -/
def c3Payload : RegisterPayload :=
  { ip := "p2:5000"
    initialPlayers := []
    initialTurnCounts := []
    initialReadyPlayers := []
    initialArchive := []
    initialPlayerVowelPowers := []
    initialCursedLetters := []
    initialDeadLetters := ['a']
    initialPlayerPhonePads := []
    initialPlayerLetterCounts := []
    initialPlayerMaxTimeouts := []
    initialPlayerInabilities := []
    initialActiveMissions := []
    initialCompletedMissions := []
    initialLetterCurseCounts := [('a', 2)] }

/-- C4 state on the computer-adapter side: peer `"h"` with the computer
opponent registered. -/
def c4State : GameState :=
  { baseState with
    players := ["h", "computer"]
    player_vowel_powers := [("h", defaultVowelPowers), ("computer", defaultVowelPowers)]
    player_phone_pads := [("h", get_new_phone_pad), ("computer", get_new_phone_pad)]
    player_letter_counts := [("h", []), ("computer", [])]
    player_max_timeouts := [("h", 15000), ("computer", 15000)]
    player_inabilities := [("h", []), ("computer", [])] }

/-- C4 state for the human pipeline run as the computer: identical game
substate, with `"computer"` as the acting peer. -/
def c4StateAsComputer : GameState := { c4State with own_identifier := "computer" }

/-- C6 witness state. -/
def c6State : GameState := { baseState with history := [⟨"h", ['a'], 100, [], none⟩] }

/-- C7 counterexample state: a solo peer about to declare readiness. -/
def c7State : GameState :=
  { baseState with ready_players := [], current_word := none, turn_counts := [("h", 0)] }

/-- C8 pad: columns 4 and 7 charged (the `'*'` columns), column 3 empty. -/
def c8Pad : List (Char × Nat) :=
  [('2', 1), ('3', 0), ('4', 2), ('5', 1), ('6', 0), ('7', 1), ('8', 1), ('9', 0)]

/-- C8 state: the caller holds `c8Pad`. -/
def c8State : GameState :=
  { baseState with player_phone_pads := [("h", c8Pad)] }

/-- C9 counterexample state: `'a'` has reached escalation level 2. -/
def c9State : GameState :=
  { baseState with dead_letters := ['a'], letter_curse_counts := [('a', 2)] }

/-- C9 counterexample payload: a register merge carrying a lower
escalation count for `'a'`. -/
def c9Payload : RegisterPayload := { c3Payload with
  initialDeadLetters := [], initialLetterCurseCounts := [('a', 0)] }

/-- C9 witness state: the letter `'b'` is dead at escalation level 2. -/
def c9WitnessState : GameState :=
  { baseState with dead_letters := ['b'], letter_curse_counts := [('b', 2)] }

/-- C10 counterexample state: empty history. -/
def c10State : GameState := baseState

/-- C10 witness state: exactly one history entry. -/
def c10WitnessState : GameState := { baseState with history := [⟨"h", ['a'], 100, [], none⟩] }

/-! # Helper lemmas -/

theorem dget?_dset_self {K V : Type} [DecidableEq K] (d : List (K × V)) (k : K) (v : V) :
    dget? (dset d k v) k = some v := by
  induction d with
  | nil => simp [dset, dget?]
  | cons hd t ih =>
    by_cases h : hd.1 = k
    · simp [dset, dget?, h]
    · simp [dset, dget?, h, ih]

theorem dget?_dset_ne {K V : Type} [DecidableEq K] (d : List (K × V)) (k l : K) (v : V)
    (h : l ≠ k) : dget? (dset d k v) l = dget? d l := by
  induction d with
  | nil => simp [dset, dget?, Ne.symm h]
  | cons hd t ih =>
    by_cases hk : hd.1 = k
    · simp [dset, dget?, hk, Ne.symm h]
    · simp only [dset, hk, if_false, dget?]
      by_cases hl : hd.1 = l
      · simp [hl]
      · simp [hl, ih]

theorem dget_dset_self {K V : Type} [DecidableEq K] (d : List (K × V)) (k : K) (v dflt : V) :
    dget (dset d k v) k dflt = v := by
  simp [dget, dget?_dset_self]

theorem dget_dset_ne {K V : Type} [DecidableEq K] (d : List (K × V)) (k l : K) (v dflt : V)
    (h : l ≠ k) : dget (dset d k v) l dflt = dget d l dflt := by
  simp [dget, dget?_dset_ne _ _ _ _ h]

theorem dget?_mapVals {K V : Type} [DecidableEq K] (f : K → V → V) (d : List (K × V)) (k : K) :
    dget? (d.map (fun pc => (pc.1, f pc.1 pc.2))) k = (dget? d k).map (f k) := by
  induction d with
  | nil => simp [dget?]
  | cons hd t ih =>
    by_cases h : hd.1 = k
    · subst h; simp [dget?, ih]
    · simp [dget?, h, ih]

theorem pyInt_eq_floor (q : ℚ) (h : 0 ≤ q) : pyInt q = ⌊q⌋ := by
  unfold pyInt
  rw [Rat.floor_def]
  exact Int.tdiv_eq_ediv (Rat.num_nonneg.mpr h) (by positivity)

theorem pyInt_clamp_bounds (x : ℚ) :
    3000 ≤ pyInt (max ((MIN_TIMEOUT_MS : Int) : ℚ) (min x ((MAX_TIMEOUT_MS : Int) : ℚ))) ∧
    pyInt (max ((MIN_TIMEOUT_MS : Int) : ℚ) (min x ((MAX_TIMEOUT_MS : Int) : ℚ))) ≤ 60000 := by
  have hmin : ((MIN_TIMEOUT_MS : Int) : ℚ) = (3000 : ℚ) := by norm_num [MIN_TIMEOUT_MS]
  have hmax : ((MAX_TIMEOUT_MS : Int) : ℚ) = (60000 : ℚ) := by norm_num [MAX_TIMEOUT_MS]
  rw [hmin, hmax]
  set q : ℚ := max 3000 (min x 60000) with hq
  have h0 : (3000 : ℚ) ≤ q := le_max_left _ _
  have h1 : q ≤ 60000 := by
    apply max_le (by norm_num)
    exact le_trans (min_le_right _ _) (le_refl _)
  have hq0 : (0 : ℚ) ≤ q := le_trans (by norm_num) h0
  rw [pyInt_eq_floor q hq0]
  constructor
  · exact Int.le_floor.mpr (by exact_mod_cast h0)
  · calc ⌊q⌋ ≤ ⌊(60000 : ℚ)⌋ := Int.floor_mono h1
      _ = 60000 := by norm_num

/-! ## Field-preservation lemmas for the pass-ball pipeline stages -/

theorem cursedMalus_dead (s : GameState) (my : String) (l : Char) :
    ((applyCursedMalus s my l).1).dead_letters = s.dead_letters := by
  unfold applyCursedMalus; split <;> rfl

theorem cursedMalus_lcc (s : GameState) (my : String) (l : Char) :
    ((applyCursedMalus s my l).1).letter_curse_counts = s.letter_curse_counts := by
  unfold applyCursedMalus; split <;> rfl

theorem cursedMalus_own (s : GameState) (my : String) (l : Char) :
    ((applyCursedMalus s my l).1).own_identifier = s.own_identifier := by
  unfold applyCursedMalus; split <;> rfl

theorem cursedMalus_cursed_sub (s : GameState) (my : String) (l x : Char)
    (h : x ∈ ((applyCursedMalus s my l).1).cursed_letters) : x ∈ s.cursed_letters := by
  unfold applyCursedMalus at h
  split at h
  · exact List.mem_of_mem_erase h
  · exact h

theorem cursedMalus_not_fired (s : GameState) (my : String) (l : Char)
    (h : l ∉ s.cursed_letters) : applyCursedMalus s my l = (s, false) := by
  unfold applyCursedMalus; rw [if_neg h]

theorem cursedMalus_counts_zero (s : GameState) (my : String) (l : Char)
    (h : l ∈ s.cursed_letters) :
    dget (dget ((applyCursedMalus s my l).1).player_letter_counts my []) l 0 = 0 := by
  unfold applyCursedMalus
  rw [if_pos h]
  show dget (dget (s.player_letter_counts.map
    (fun pc => (pc.1, if (dget? pc.2 l).isSome then dset pc.2 l 0 else pc.2))) my []) l 0 = 0
  simp only [dget]
  rw [dget?_mapVals (fun _ c => if (dget? c l).isSome then dset c l 0 else c)]
  cases hc : dget? s.player_letter_counts my with
  | none => rfl
  | some c =>
    by_cases hl : (dget? c l).isSome
    · simp only [Option.map_some', Option.getD_some, if_pos hl]
      have := dget_dset_self c l 0 0
      simpa [dget] using this
    · simp only [Option.map_some', Option.getD_some, if_neg hl]
      rw [Option.not_isSome_iff_eq_none.mp hl]
      rfl

theorem padInc_dead (s : GameState) (my : String) (l : Char) :
    (applyPadIncrement s my l).dead_letters = s.dead_letters := by
  unfold applyPadIncrement; cases dget? LETTER_TO_PAD l <;> rfl

theorem padInc_cursed (s : GameState) (my : String) (l : Char) :
    (applyPadIncrement s my l).cursed_letters = s.cursed_letters := by
  unfold applyPadIncrement; cases dget? LETTER_TO_PAD l <;> rfl

theorem padInc_lcc (s : GameState) (my : String) (l : Char) :
    (applyPadIncrement s my l).letter_curse_counts = s.letter_curse_counts := by
  unfold applyPadIncrement; cases dget? LETTER_TO_PAD l <;> rfl

theorem padInc_counts (s : GameState) (my : String) (l : Char) :
    (applyPadIncrement s my l).player_letter_counts = s.player_letter_counts := by
  unfold applyPadIncrement; cases dget? LETTER_TO_PAD l <;> rfl

theorem padInc_own (s : GameState) (my : String) (l : Char) :
    (applyPadIncrement s my l).own_identifier = s.own_identifier := by
  unfold applyPadIncrement; cases dget? LETTER_TO_PAD l <;> rfl

theorem attackCombo_dead (s : GameState) (my : String) :
    ((applyAttackCombo s my).1).dead_letters = s.dead_letters := by
  unfold applyAttackCombo; split <;> rfl

theorem attackCombo_cursed (s : GameState) (my : String) :
    ((applyAttackCombo s my).1).cursed_letters = s.cursed_letters := by
  unfold applyAttackCombo; split <;> rfl

theorem attackCombo_lcc (s : GameState) (my : String) :
    ((applyAttackCombo s my).1).letter_curse_counts = s.letter_curse_counts := by
  unfold applyAttackCombo; split <;> rfl

theorem attackCombo_counts (s : GameState) (my : String) :
    ((applyAttackCombo s my).1).player_letter_counts = s.player_letter_counts := by
  unfold applyAttackCombo; split <;> rfl

theorem attackCombo_own (s : GameState) (my : String) :
    ((applyAttackCombo s my).1).own_identifier = s.own_identifier := by
  unfold applyAttackCombo; split <;> rfl

theorem effect_dead (m : Mission) (p : String) (s : GameState) :
    (applyEffect m p s).dead_letters = s.dead_letters := by
  unfold applyEffect; cases m.id <;> rfl

theorem effect_cursed (m : Mission) (p : String) (s : GameState) :
    (applyEffect m p s).cursed_letters = s.cursed_letters := by
  unfold applyEffect; cases m.id <;> rfl

theorem effect_lcc (m : Mission) (p : String) (s : GameState) :
    (applyEffect m p s).letter_curse_counts = s.letter_curse_counts := by
  unfold applyEffect; cases m.id <;> rfl

theorem effect_own (m : Mission) (p : String) (s : GameState) :
    (applyEffect m p s).own_identifier = s.own_identifier := by
  unfold applyEffect; cases m.id <;> rfl

theorem replaceTriggered_dead (pick : List MissionId → Option MissionId) (m : Mission)
    (s : GameState) : (replaceTriggered pick m s).dead_letters = s.dead_letters := by
  unfold replaceTriggered; dsimp only; split <;> rfl

theorem replaceTriggered_cursed (pick : List MissionId → Option MissionId) (m : Mission)
    (s : GameState) : (replaceTriggered pick m s).cursed_letters = s.cursed_letters := by
  unfold replaceTriggered; dsimp only; split <;> rfl

theorem replaceTriggered_lcc (pick : List MissionId → Option MissionId) (m : Mission)
    (s : GameState) : (replaceTriggered pick m s).letter_curse_counts = s.letter_curse_counts := by
  unfold replaceTriggered; dsimp only; split <;> rfl

theorem replaceTriggered_own (pick : List MissionId → Option MissionId) (m : Mission)
    (s : GameState) : (replaceTriggered pick m s).own_identifier = s.own_identifier := by
  unfold replaceTriggered; dsimp only; split <;> rfl

theorem missionStep_dead (pick : List MissionId → Option MissionId) (my : String)
    (acc : GameState × List Modifier × Bool × Bool) (m : Mission) :
    (missionStep pick my acc m).1.dead_letters = acc.1.dead_letters := by
  unfold missionStep; dsimp only
  rw [replaceTriggered_dead, effect_dead]

theorem missionStep_cursed (pick : List MissionId → Option MissionId) (my : String)
    (acc : GameState × List Modifier × Bool × Bool) (m : Mission) :
    (missionStep pick my acc m).1.cursed_letters = acc.1.cursed_letters := by
  unfold missionStep; dsimp only
  rw [replaceTriggered_cursed, effect_cursed]

theorem missionStep_lcc (pick : List MissionId → Option MissionId) (my : String)
    (acc : GameState × List Modifier × Bool × Bool) (m : Mission) :
    (missionStep pick my acc m).1.letter_curse_counts = acc.1.letter_curse_counts := by
  unfold missionStep; dsimp only
  rw [replaceTriggered_lcc, effect_lcc]

theorem missionStep_own (pick : List MissionId → Option MissionId) (my : String)
    (acc : GameState × List Modifier × Bool × Bool) (m : Mission) :
    (missionStep pick my acc m).1.own_identifier = acc.1.own_identifier := by
  unfold missionStep; dsimp only
  rw [replaceTriggered_own, effect_own]

theorem foldl_missionStep_dead (pick : List MissionId → Option MissionId) (my : String)
    (L : List Mission) (acc : GameState × List Modifier × Bool × Bool) :
    (List.foldl (missionStep pick my) acc L).1.dead_letters = acc.1.dead_letters := by
  induction L generalizing acc with
  | nil => rfl
  | cons m t ih => rw [List.foldl_cons, ih, missionStep_dead]

theorem foldl_missionStep_cursed (pick : List MissionId → Option MissionId) (my : String)
    (L : List Mission) (acc : GameState × List Modifier × Bool × Bool) :
    (List.foldl (missionStep pick my) acc L).1.cursed_letters = acc.1.cursed_letters := by
  induction L generalizing acc with
  | nil => rfl
  | cons m t ih => rw [List.foldl_cons, ih, missionStep_cursed]

theorem foldl_missionStep_lcc (pick : List MissionId → Option MissionId) (my : String)
    (L : List Mission) (acc : GameState × List Modifier × Bool × Bool) :
    (List.foldl (missionStep pick my) acc L).1.letter_curse_counts = acc.1.letter_curse_counts := by
  induction L generalizing acc with
  | nil => rfl
  | cons m t ih => rw [List.foldl_cons, ih, missionStep_lcc]

theorem foldl_missionStep_own (pick : List MissionId → Option MissionId) (my : String)
    (L : List Mission) (acc : GameState × List Modifier × Bool × Bool) :
    (List.foldl (missionStep pick my) acc L).1.own_identifier = acc.1.own_identifier := by
  induction L generalizing acc with
  | nil => rfl
  | cons m t ih => rw [List.foldl_cons, ih, missionStep_own]

theorem speedMult_dead (s : GameState) (my : String) (nt : Int) :
    ((applySpeedMultiplier s my nt).2).dead_letters = s.dead_letters := by
  unfold applySpeedMultiplier; cases dget? s.opponent_speed_multiplier my
  · rfl
  · dsimp only; split <;> rfl

theorem speedMult_cursed (s : GameState) (my : String) (nt : Int) :
    ((applySpeedMultiplier s my nt).2).cursed_letters = s.cursed_letters := by
  unfold applySpeedMultiplier; cases dget? s.opponent_speed_multiplier my
  · rfl
  · dsimp only; split <;> rfl

theorem speedMult_lcc (s : GameState) (my : String) (nt : Int) :
    ((applySpeedMultiplier s my nt).2).letter_curse_counts = s.letter_curse_counts := by
  unfold applySpeedMultiplier; cases dget? s.opponent_speed_multiplier my
  · rfl
  · dsimp only; split <;> rfl

theorem speedMult_own (s : GameState) (my : String) (nt : Int) :
    ((applySpeedMultiplier s my nt).2).own_identifier = s.own_identifier := by
  unfold applySpeedMultiplier; cases dget? s.opponent_speed_multiplier my
  · rfl
  · dsimp only; split <;> rfl

theorem pbPrefix_dead (s2 : GameState) (w : List Char) (l : Char) (cts now : ℚ) :
    (pbPrefix s2 w l cts now).1.dead_letters = s2.dead_letters := by
  unfold pbPrefix; dsimp only
  rw [attackCombo_dead, padInc_dead, cursedMalus_dead]
  rfl

theorem pbPrefix_lcc (s2 : GameState) (w : List Char) (l : Char) (cts now : ℚ) :
    (pbPrefix s2 w l cts now).1.letter_curse_counts = s2.letter_curse_counts := by
  unfold pbPrefix; dsimp only
  rw [attackCombo_lcc, padInc_lcc, cursedMalus_lcc]
  rfl

theorem pbPrefix_own (s2 : GameState) (w : List Char) (l : Char) (cts now : ℚ) :
    (pbPrefix s2 w l cts now).1.own_identifier = s2.own_identifier := by
  unfold pbPrefix; dsimp only
  rw [attackCombo_own, padInc_own, cursedMalus_own]
  rfl

theorem pbPrefix_cursed_sub (s2 : GameState) (w : List Char) (l x : Char) (cts now : ℚ)
    (h : x ∈ (pbPrefix s2 w l cts now).1.cursed_letters) : x ∈ s2.cursed_letters := by
  unfold pbPrefix at h; dsimp only at h
  rw [attackCombo_cursed, padInc_cursed] at h
  have h2 := cursedMalus_cursed_sub _ _ _ x h
  exact h2

theorem pbPrefix_cursed_eq (s2 : GameState) (w : List Char) (l : Char) (cts now : ℚ)
    (h : l ∉ s2.cursed_letters) :
    (pbPrefix s2 w l cts now).1.cursed_letters = s2.cursed_letters := by
  unfold pbPrefix; dsimp only
  rw [attackCombo_cursed, padInc_cursed,
      cursedMalus_not_fired (pbClearInabilities s2) s2.own_identifier l h]
  rfl

theorem pbPrefix_counts_zero (s2 : GameState) (w : List Char) (l : Char) (cts now : ℚ)
    (h : l ∈ s2.cursed_letters) :
    dget (dget (pbPrefix s2 w l cts now).1.player_letter_counts s2.own_identifier []) l 0 = 0 := by
  unfold pbPrefix; dsimp only
  rw [attackCombo_counts, padInc_counts]
  exact cursedMalus_counts_zero (pbClearInabilities s2) s2.own_identifier l h

/-! ## Curse-escalation lemmas -/

theorem curseEsc_lcc_mono (s : GameState) (my : String) (l x : Char) :
    dget s.letter_curse_counts x 0 ≤
      dget (applyCurseEscalation s my l).letter_curse_counts x 0 := by
  unfold applyCurseEscalation
  dsimp only
  split
  · by_cases h0 : dget s.letter_curse_counts l 0 = 0
    · rw [if_pos h0]
      dsimp only
      by_cases hx : x = l
      · subst hx
        rw [dget_dset_self, h0]
        norm_num
      · rw [dget_dset_ne _ _ _ _ _ hx]
    · rw [if_neg h0]
      by_cases h1 : dget s.letter_curse_counts l 0 = 1
      · rw [if_pos h1]
        dsimp only
        by_cases hx : x = l
        · subst hx
          rw [dget_dset_self, h1]
          norm_num
        · rw [dget_dset_ne _ _ _ _ _ hx]
      · rw [if_neg h1]
  · exact le_refl _

theorem curseEsc_inv (s : GameState) (my : String) (l : Char)
    (hinv : deadCurseInv s) (hdead : l ∉ s.dead_letters)
    (hml : l ∈ s.cursed_letters → dget (dget s.player_letter_counts my []) l 0 = 0) :
    deadCurseInv (applyCurseEscalation s my l) := by
  unfold applyCurseEscalation
  dsimp only
  split
  · next hth =>
    have hlc : l ∉ s.cursed_letters := by
      intro hmem
      rw [hml hmem] at hth
      exact absurd hth (by norm_num [CURSE_THRESHOLD])
    by_cases h0 : dget s.letter_curse_counts l 0 = 0
    · rw [if_pos h0]
      unfold deadCurseInv
      dsimp only
      intro m hm
      obtain ⟨hmc, hml2⟩ := hinv m hm
      have hne : m ≠ l := fun he => hdead (he ▸ hm)
      constructor
      · intro hmem
        rw [if_neg hlc] at hmem
        rcases List.mem_append.mp hmem with h | h
        · exact hmc h
        · exact hne (List.mem_singleton.mp h)
      · rw [dget_dset_ne _ _ _ _ _ hne]
        exact hml2
    · rw [if_neg h0]
      by_cases h1 : dget s.letter_curse_counts l 0 = 1
      · rw [if_pos h1]
        unfold deadCurseInv
        dsimp only
        intro m hm
        rcases List.mem_append.mp hm with hms | hml3
        · obtain ⟨hmc, hml2⟩ := hinv m hms
          have hne : m ≠ l := fun he => hdead (he ▸ hms)
          constructor
          · intro hmem
            exact hmc (List.mem_of_mem_erase hmem)
          · rw [dget_dset_ne _ _ _ _ _ hne]
            exact hml2
        · have hml4 : m = l := List.mem_singleton.mp hml3
          subst hml4
          constructor
          · intro hmem
            exact hlc (List.mem_of_mem_erase hmem)
          · rw [dget_dset_self]
      · rw [if_neg h1]
        intro m hm
        exact hinv m hm
  · intro m hm
    exact hinv m hm

/-! ## `end_turn` lemmas -/

theorem elect_fields (s : GameState) (c : String) (r m : Bool) (o : String)
    (p : GameState × String) (h : endTurnElect s c r m o = some p) :
    p.1.cursed_letters = s.cursed_letters ∧ p.1.dead_letters = s.dead_letters ∧
    p.1.letter_curse_counts = s.letter_curse_counts ∧
    p.1.player_inabilities = s.player_inabilities := by
  unfold endTurnElect at h
  dsimp only at h
  repeat' split at h
  all_goals try exact Option.noConfusion h
  all_goals injection h with h2
  all_goals subst h2
  all_goals exact ⟨rfl, rfl, rfl, rfl⟩

theorem updates_letters (s : GameState) (c n : String) (t : Int) (ni : List Char)
    (mods : List Modifier) (s' : GameState) (h : endTurnUpdates s c n t ni mods = some s') :
    s'.cursed_letters = s.cursed_letters ∧ s'.dead_letters = s.dead_letters ∧
    s'.letter_curse_counts = s.letter_curse_counts := by
  unfold endTurnUpdates at h
  dsimp only at h
  repeat' split at h
  all_goals try exact Option.noConfusion h
  all_goals injection h with h2
  all_goals subst h2
  all_goals exact ⟨rfl, rfl, rfl⟩

theorem updates_inab (s : GameState) (c n : String) (t : Int) (ni : List Char)
    (mods : List Modifier) (s' : GameState) (h : endTurnUpdates s c n t ni mods = some s') :
    dget s'.player_inabilities c [] = [] := by
  unfold endTurnUpdates at h
  dsimp only at h
  repeat' split at h
  all_goals try exact Option.noConfusion h
  all_goals injection h with h2
  all_goals subst h2
  all_goals exact dget_dset_self _ _ _ _

theorem end_turn_letters (s : GameState) (c : String) (t : Int) (ni : List Char)
    (mods : List Modifier) (r m : Bool) (o : String) (s' : GameState)
    (h : end_turn s c t ni mods r m o = some s') :
    s'.cursed_letters = s.cursed_letters ∧ s'.dead_letters = s.dead_letters ∧
    s'.letter_curse_counts = s.letter_curse_counts := by
  unfold end_turn at h
  cases he : endTurnElect s c r m o with
  | none => rw [he] at h; exact Option.noConfusion h
  | some p =>
    obtain ⟨s1, n⟩ := p
    rw [he] at h
    dsimp only at h
    obtain ⟨e1, e2, e3, _⟩ := elect_fields s c r m o (s1, n) he
    obtain ⟨u1, u2, u3⟩ := updates_letters s1 c n t ni mods s' h
    exact ⟨u1.trans e1, u2.trans e2, u3.trans e3⟩

theorem end_turn_inab (s : GameState) (c : String) (t : Int) (ni : List Char)
    (mods : List Modifier) (r m : Bool) (o : String) (s' : GameState)
    (h : end_turn s c t ni mods r m o = some s') :
    dget s'.player_inabilities c [] = [] := by
  unfold end_turn at h
  cases he : endTurnElect s c r m o with
  | none => rw [he] at h; exact Option.noConfusion h
  | some p =>
    obtain ⟨s1, n⟩ := p
    rw [he] at h
    dsimp only at h
    exact updates_inab s1 c n t ni mods s' h

theorem elect_mirror_short (s : GameState) (c : String) (r : Bool) (o : String)
    (h : ¬ 1 < s.history.length) : endTurnElect s c r true o = some (s, c) := by
  unfold endTurnElect
  dsimp only
  rw [if_neg h]
  rfl

/-! ## `pass_ball` precondition and commit lemmas -/

theorem check_err_char (s : GameState) (w : List Char) (e : PBErr) (st : GameState)
    (h : passBallCheck s w = .error (.httpErr e st)) :
    match e with
    | .noTurn => st = s
    | .invalidWord => st = s
    | .forcedMismatch _ => st = { s with game_timer := false }
    | .blocked _ => st = { s with game_timer := false, forced_letter := none } := by
  unfold passBallCheck at h
  dsimp only at h
  repeat' split at h
  all_goals try exact Except.noConfusion h
  all_goals injection h with h2
  all_goals try exact PBExit.noConfusion h2
  all_goals injection h2 with h3 h4
  all_goals subst h3
  all_goals subst h4
  all_goals rfl

theorem check_exit_letters (s : GameState) (w : List Char) (ex : PBExit)
    (h : passBallCheck s w = .error ex) :
    ex.state.cursed_letters = s.cursed_letters ∧ ex.state.dead_letters = s.dead_letters ∧
    ex.state.letter_curse_counts = s.letter_curse_counts := by
  unfold passBallCheck at h
  dsimp only at h
  repeat' split at h
  all_goals try exact Except.noConfusion h
  all_goals injection h with h2
  all_goals subst h2
  all_goals exact ⟨rfl, rfl, rfl⟩

theorem check_ok_fields (s : GameState) (w : List Char) (p : GameState × Char)
    (h : passBallCheck s w = .ok p) :
    p.1 = { s with game_timer := false, forced_letter := none } ∧
    p.2 = w.getLastD ' ' ∧ p.2 ∉ s.dead_letters := by
  unfold passBallCheck at h
  dsimp only at h
  repeat' split at h
  all_goals try exact Except.noConfusion h
  all_goals injection h with h2
  all_goals subst h2
  all_goals exact ⟨rfl, rfl, by assumption⟩

theorem pass_ball_err_cases (s : GameState) (w : List Char) (cts now : ℚ)
    (pick : List MissionId → Option MissionId) (o : String) (e : PBErr) (st : GameState)
    (h : pass_ball s w cts now pick o = .err e st) :
    passBallCheck s w = .error (.httpErr e st) := by
  unfold pass_ball at h
  cases hc : passBallCheck s w with
  | error ex =>
    cases ex with
    | httpErr e' st' =>
      rw [hc] at h
      dsimp only at h
      injection h with h1 h2
      subst h1; subst h2
      rfl
    | deadLetter st' =>
      rw [hc] at h
      exact PBResult.noConfusion h
  | ok p =>
    obtain ⟨s2, l⟩ := p
    rw [hc] at h
    dsimp only at h
    cases hcm : passBallCommit s2 w l cts now pick o <;> rw [hcm] at h <;>
      exact PBResult.noConfusion h

theorem pass_ball_dead_cases (s : GameState) (w : List Char) (cts now : ℚ)
    (pick : List MissionId → Option MissionId) (o : String) (st : GameState)
    (h : pass_ball s w cts now pick o = .deadLetterLoss st) :
    ∃ s0, passBallCheck s w = .error (.deadLetter s0) ∧
      st = game_over s0 s0.own_identifier := by
  unfold pass_ball at h
  cases hc : passBallCheck s w with
  | error ex =>
    cases ex with
    | httpErr e' st' =>
      rw [hc] at h
      exact PBResult.noConfusion h
    | deadLetter st' =>
      rw [hc] at h
      dsimp only at h
      injection h with h1
      exact ⟨st', rfl, h1.symm⟩
  | ok p =>
    obtain ⟨s2, l⟩ := p
    rw [hc] at h
    dsimp only at h
    cases hcm : passBallCommit s2 w l cts now pick o <;> rw [hcm] at h <;>
      exact PBResult.noConfusion h

theorem check_dead_word (s : GameState) (w : List Char) (st : GameState)
    (h : passBallCheck s w = .error (.deadLetter st)) :
    st.current_word ≠ none := by
  unfold passBallCheck at h
  dsimp only at h
  repeat' split at h
  all_goals try exact Except.noConfusion h
  all_goals injection h with h2
  all_goals try exact PBExit.noConfusion h2
  all_goals injection h2 with h3
  all_goals subst h3
  all_goals simp_all

theorem game_over_inv (s : GameState) (l : String) (h : deadCurseInv s) :
    deadCurseInv (game_over s l) := by
  unfold game_over
  split
  · exact h
  · intro m hm
    exact absurd hm (List.not_mem_nil m)

theorem game_over_counts (s : GameState) (l : String) (h : s.current_word ≠ none) :
    (game_over s l).letter_curse_counts = [] := by
  unfold game_over
  rw [if_neg (fun hc => h hc.1)]
  rfl

theorem pass_ball_ok_cases (s : GameState) (w : List Char) (cts now : ℚ)
    (pick : List MissionId → Option MissionId) (o : String) (s' : GameState)
    (h : pass_ball s w cts now pick o = .ok s') :
    ∃ s2 l, passBallCheck s w = .ok (s2, l) ∧
      passBallCommit s2 w l cts now pick o = some s' := by
  unfold pass_ball at h
  cases hc : passBallCheck s w with
  | error ex =>
    cases ex with
    | httpErr e' st' => rw [hc] at h; exact PBResult.noConfusion h
    | deadLetter st' => rw [hc] at h; exact PBResult.noConfusion h
  | ok p =>
    obtain ⟨s2, l⟩ := p
    rw [hc] at h
    dsimp only at h
    cases hcm : passBallCommit s2 w l cts now pick o with
    | none => rw [hcm] at h; exact PBResult.noConfusion h
    | some st =>
      rw [hcm] at h
      injection h with h1
      subst h1
      exact ⟨s2, l, rfl, hcm⟩

theorem commit_inab (s2 : GameState) (w : List Char) (l : Char) (cts now : ℚ)
    (pick : List MissionId → Option MissionId) (o : String) (s' : GameState)
    (h : passBallCommit s2 w l cts now pick o = some s') :
    dget s'.player_inabilities s2.own_identifier [] = [] := by
  unfold passBallCommit at h
  dsimp only at h
  exact end_turn_inab _ _ _ _ _ _ _ _ _ h

theorem commit_lcc_mono (s2 : GameState) (w : List Char) (l : Char) (cts now : ℚ)
    (pick : List MissionId → Option MissionId) (o : String) (s' : GameState)
    (h : passBallCommit s2 w l cts now pick o = some s') (x : Char) :
    dget s2.letter_curse_counts x 0 ≤ dget s'.letter_curse_counts x 0 := by
  unfold passBallCommit at h
  dsimp only at h
  obtain ⟨_, _, hl⟩ := end_turn_letters _ _ _ _ _ _ _ _ _ h
  rw [hl, speedMult_lcc, foldl_missionStep_lcc]
  show dget s2.letter_curse_counts x 0 ≤
    dget (applyCurseEscalation (pbPrefix s2 w l cts now).1 s2.own_identifier l).letter_curse_counts
      x 0
  rw [← pbPrefix_lcc s2 w l cts now]
  exact curseEsc_lcc_mono _ _ _ _

theorem commit_inv (s2 : GameState) (w : List Char) (l : Char) (cts now : ℚ)
    (pick : List MissionId → Option MissionId) (o : String) (s' : GameState)
    (hinv : deadCurseInv s2) (hdead : l ∉ s2.dead_letters)
    (h : passBallCommit s2 w l cts now pick o = some s') : deadCurseInv s' := by
  unfold passBallCommit at h
  dsimp only at h
  obtain ⟨hc, hd, hl⟩ := end_turn_letters _ _ _ _ _ _ _ _ _ h
  have hT : deadCurseInv
      (applyCurseEscalation (pbPrefix s2 w l cts now).1 s2.own_identifier l) := by
    apply curseEsc_inv
    · intro m hm
      rw [pbPrefix_dead] at hm
      obtain ⟨h1, h2⟩ := hinv m hm
      constructor
      · intro hmem
        exact h1 (pbPrefix_cursed_sub _ _ _ _ _ _ hmem)
      · rw [pbPrefix_lcc]
        exact h2
    · rw [pbPrefix_dead]
      exact hdead
    · intro hmem
      by_cases hcm : l ∈ s2.cursed_letters
      · exact pbPrefix_counts_zero s2 w l cts now hcm
      · exact absurd (pbPrefix_cursed_sub _ _ _ _ _ _ hmem) hcm
  intro m hm
  rw [hd, speedMult_dead, foldl_missionStep_dead] at hm
  dsimp only at hm
  obtain ⟨h1, h2⟩ := hT m hm
  constructor
  · intro hmem
    rw [hc, speedMult_cursed, foldl_missionStep_cursed] at hmem
    dsimp only at hmem
    exact h1 hmem
  · rw [hl, speedMult_lcc, foldl_missionStep_lcc]
    dsimp only
    exact h2

/-! # Claim theorems -/

/-- C1: a pass-ball request that fails a precondition does not always
leave the state untouched.  Amended per-error characterization: the 408
(no turn) and 400 (invalid word) raises return the state unchanged, but
the forced-letter mismatch 400 fires after the deadline timer has been
cancelled, and the blocked-letter 403 additionally clears
`forced_letter`. -/
theorem pass_ball_error_state_amended (s : GameState) (w : List Char) (cts now : ℚ)
    (pick : List MissionId → Option MissionId) (o : String) (e : PBErr) (st : GameState)
    (h : pass_ball s w cts now pick o = .err e st) :
    (e = .noTurn → st = s) ∧
    (e = .invalidWord → st = s) ∧
    (∀ c, e = .forcedMismatch c → st = { s with game_timer := false }) ∧
    (∀ c, e = .blocked c → st = { s with game_timer := false, forced_letter := none }) := by
  have hc := check_err_char s w e st (pass_ball_err_cases s w cts now pick o e st h)
  refine ⟨?_, ?_, ?_, ?_⟩
  · intro he; subst he; exact hc
  · intro he; subst he; exact hc
  · intro c he; subst he; exact hc
  · intro c he; subst he; exact hc

set_option maxRecDepth 4000 in
/-- C1 counterexample: with a forced letter pending, a mismatching word
is rejected with 400 but the deadline timer has already been cancelled,
so the post-request state differs from the pre-request state. -/
theorem pass_ball_error_counterexample :
    pass_ball c1State ['a', 'x'] 500 0 pickNone "h" =
      .err (.forcedMismatch 'u') { c1State with game_timer := false } ∧
    ({ c1State with game_timer := false } : GameState) ≠ c1State :=
  ⟨by with_unfolding_all rfl, by with_unfolding_all decide⟩

/-- C1 witness: the amended theorem applied at the missing-turn error. -/
theorem pass_ball_error_state_amended_witness : c1WitnessState = c1WitnessState :=
  (pass_ball_error_state_amended c1WitnessState ['a', 'x'] 500 0 pickNone "h" .noTurn
    c1WitnessState (by with_unfolding_all rfl)).1 rfl

/-- C2: `calculate_next_timeout` is a pure function of its five arguments
(definitional in the embedding, stated as determinism of a repeated
call), and on every input with a non-empty word the returned
`final_timeout` satisfies `3000 ≤ final_timeout ≤ 60000`. -/
theorem calculate_next_timeout_pure_and_bounded (rt : Int) (w : List Char)
    (pvp : List (Char × ℚ)) (cm pm : Bool) (hw : w ≠ []) :
    calculate_next_timeout rt w pvp cm pm = calculate_next_timeout rt w pvp cm pm ∧
    3000 ≤ (calculate_next_timeout rt w pvp cm pm).1 ∧
    (calculate_next_timeout rt w pvp cm pm).1 ≤ 60000 := by
  refine ⟨rfl, ?_⟩
  unfold calculate_next_timeout
  dsimp only
  exact pyInt_clamp_bounds _

/-- C2 witness at a concrete call. -/
theorem calculate_next_timeout_pure_and_bounded_witness :
    (['a', 'b'] : List Char) ≠ [] ∧
    (calculate_next_timeout 8000 ['a', 'b'] defaultVowelPowers false false =
        calculate_next_timeout 8000 ['a', 'b'] defaultVowelPowers false false ∧
      3000 ≤ (calculate_next_timeout 8000 ['a', 'b'] defaultVowelPowers false false).1 ∧
      (calculate_next_timeout 8000 ['a', 'b'] defaultVowelPowers false false).1 ≤ 60000) :=
  ⟨by decide, calculate_next_timeout_pure_and_bounded 8000 ['a', 'b'] defaultVowelPowers
    false false (by decide)⟩

/-- C3 counterexample: the `register` merge breaks the dead/cursed
invariant — a peer payload carrying `'a'` as dead is unioned into
`dead_letters` while `'a'` stays locally cursed. -/
theorem register_breaks_dead_curse_invariant :
    deadCurseInv c3State ∧ ¬ deadCurseInv (register c3State c3Payload) := by
  with_unfolding_all decide

/-- C3 (amended): the dead/cursed invariant is preserved by every
non-crash outcome of a `pass_ball` request and re-established by the
game-over reset; the `register` merge does not preserve it. -/
theorem dead_curse_invariant_amended (s : GameState) (w : List Char) (cts now : ℚ)
    (pick : List MissionId → Option MissionId) (o : String) (hinv : deadCurseInv s) :
    PBResult.allStates deadCurseInv (pass_ball s w cts now pick o) ∧
    deadCurseInv (resetFullGame s) := by
  constructor
  · cases hr : pass_ball s w cts now pick o with
    | err e st =>
      have hl := check_exit_letters s w _ (pass_ball_err_cases s w cts now pick o e st hr)
      show deadCurseInv st
      dsimp only [PBExit.state] at hl
      intro m hm
      rw [hl.2.1] at hm
      rw [hl.1, hl.2.2]
      exact hinv m hm
    | deadLetterLoss st =>
      obtain ⟨s0, hck, hgo⟩ := pass_ball_dead_cases s w cts now pick o st hr
      have hl := check_exit_letters s w _ hck
      show deadCurseInv st
      dsimp only [PBExit.state] at hl
      subst hgo
      apply game_over_inv
      intro m hm
      rw [hl.2.1] at hm
      rw [hl.1, hl.2.2]
      exact hinv m hm
    | ok s' =>
      obtain ⟨s2, l, hck, hcm⟩ := pass_ball_ok_cases s w cts now pick o s' hr
      obtain ⟨hs2, hl2, hdead⟩ := check_ok_fields s w _ hck
      show deadCurseInv s'
      dsimp only at hs2 hl2 hdead
      subst hs2
      refine commit_inv _ w l cts now pick o s' ?_ ?_ hcm
      · intro m hm
        exact hinv m hm
      · exact hdead
    | crash => trivial
  · intro m hm
    exact absurd hm (List.not_mem_nil m)

/-- C3 witness for the amended preservation theorem. -/
theorem dead_curse_invariant_amended_witness :
    deadCurseInv c3State ∧
    (PBResult.allStates deadCurseInv (pass_ball c3State ['a', 'b'] 500 0 pickNone "h") ∧
      deadCurseInv (resetFullGame c3State)) :=
  ⟨by with_unfolding_all decide,
   dead_curse_invariant_amended c3State ['a', 'b'] 500 0 pickNone "h"
     (by with_unfolding_all decide)⟩

/-- C4 counterexample: for the same word, letter and response time, the
human pipeline updates the sender's letter counts while the computer's
turn leaves them unchanged. -/
theorem computer_turn_counterexample :
    (playComputerCore c4State ['a'] 'b' 500).1.player_letter_counts ≠
      ((pass_ball c4StateAsComputer ['a', 'b'] 500 0 pickNone "h").stateD
          c4StateAsComputer).player_letter_counts := by
  with_unfolding_all decide

/-- C4 (amended): the computer's turn is not the human pass-ball
pipeline — it performs only the timeout / vowel-power / history /
turn-count updates and leaves the pipeline substate (letter counts,
phone pads, cursed, dead and curse-count letters, inabilities, forced
letter) untouched, while sending back the extended word. -/
theorem computer_turn_skips_pipeline (s : GameState) (w : List Char) (l : Char) (rt : Int) :
    ((playComputerCore s w l rt).1.player_letter_counts = s.player_letter_counts) ∧
    ((playComputerCore s w l rt).1.player_phone_pads = s.player_phone_pads) ∧
    ((playComputerCore s w l rt).1.cursed_letters = s.cursed_letters) ∧
    ((playComputerCore s w l rt).1.dead_letters = s.dead_letters) ∧
    ((playComputerCore s w l rt).1.letter_curse_counts = s.letter_curse_counts) ∧
    ((playComputerCore s w l rt).1.player_inabilities = s.player_inabilities) ∧
    ((playComputerCore s w l rt).1.forced_letter = s.forced_letter) ∧
    (playComputerCore s w l rt).2 = w ++ [l] := by
  unfold playComputerCore
  dsimp only
  exact ⟨rfl, rfl, rfl, rfl, rfl, rfl, rfl, rfl⟩

/-- C5 counterexample: when the vowel's power has decayed to zero, the
`voyelle` tag is not appended (the guard is `vowel_bonus < 0`, and
`-7500 * 0 = 0`). -/
theorem calc_vowel_zero_counterexample :
    ('a' : Char) ∈ VOWELS ∧
    dget ([('a', 0)] : List (Char × ℚ)) 'a' 1 = 0 ∧
    Modifier.voyelle 0 ∉ (calculate_next_timeout 500 ['b', 'a'] [('a', 0)] false false).2.1 := by
  with_unfolding_all decide

/-- C5 (amended): on a vowel last letter with prior power `p`,
`vowel_bonus = -7500 * p` and the stored power halves, but the `voyelle`
tag is appended iff `0 < p`. -/
theorem calc_vowel_branch_amended (rt : Int) (w : List Char)
    (pvp : List (Char × ℚ)) (cm pm : Bool) (hv : w.getLastD ' ' ∈ VOWELS) :
    (calculate_next_timeout rt w pvp cm pm).2.2.2.vowel_bonus =
      -7500 * dget pvp (w.getLastD ' ') 1 ∧
    dget (calculate_next_timeout rt w pvp cm pm).2.2.1 (w.getLastD ' ') 1 =
      dget pvp (w.getLastD ' ') 1 / 2 ∧
    (Modifier.voyelle (dget pvp (w.getLastD ' ') 1) ∈
        (calculate_next_timeout rt w pvp cm pm).2.1 ↔
      0 < dget pvp (w.getLastD ' ') 1) := by
  unfold calculate_next_timeout
  dsimp only
  rw [if_pos hv]
  dsimp only
  refine ⟨rfl, dget_dset_self _ _ _ _, ?_⟩
  set p := dget pvp (w.getLastD ' ') 1 with hp
  split_ifs <;> simp [List.mem_append] <;> linarith

/-- C5 witness: the amended theorem applied on a default-power vowel. -/
theorem calc_vowel_branch_amended_witness :
    ((['b', 'a'] : List Char).getLastD ' ' ∈ VOWELS) ∧
    ((calculate_next_timeout 500 ['b', 'a'] [] false false).2.2.2.vowel_bonus =
        -7500 * dget ([] : List (Char × ℚ)) ((['b', 'a'] : List Char).getLastD ' ') 1 ∧
      dget (calculate_next_timeout 500 ['b', 'a'] [] false false).2.2.1
          ((['b', 'a'] : List Char).getLastD ' ') 1 =
        dget ([] : List (Char × ℚ)) ((['b', 'a'] : List Char).getLastD ' ') 1 / 2 ∧
      (Modifier.voyelle (dget ([] : List (Char × ℚ)) ((['b', 'a'] : List Char).getLastD ' ') 1) ∈
          (calculate_next_timeout 500 ['b', 'a'] [] false false).2.1 ↔
        0 < dget ([] : List (Char × ℚ)) ((['b', 'a'] : List Char).getLastD ' ') 1)) :=
  ⟨by decide, calc_vowel_branch_amended 500 ['b', 'a'] [] false false (by decide)⟩

/-- C6: after a successfully committed pass-ball by the acting peer, that
peer's inability list is empty — `end_turn` clears it last, in every
election outcome (including re-electing the peer itself). -/
theorem pass_ball_clears_inabilities (s : GameState) (w : List Char) (cts now : ℚ)
    (pick : List MissionId → Option MissionId) (o : String) (s' : GameState)
    (h : pass_ball s w cts now pick o = .ok s') :
    dget s'.player_inabilities s.own_identifier [] = [] := by
  obtain ⟨s2, l, hck, hcm⟩ := pass_ball_ok_cases s w cts now pick o s' h
  obtain ⟨hs2, -, -⟩ := check_ok_fields s w _ hck
  have h2 := commit_inab s2 w l cts now pick o s' hcm
  dsimp only at hs2
  rw [hs2] at h2
  exact h2

set_option maxRecDepth 4000 in
/-- C6 witness on a committed solo pass-ball. -/
theorem pass_ball_clears_inabilities_witness :
    dget ((pass_ball c6State ['a', 'b'] 500 0 pickNone "h").stateD c6State).player_inabilities
      "h" [] = [] :=
  pass_ball_clears_inabilities c6State ['a', 'b'] 500 0 pickNone "h"
    ((pass_ball c6State ['a', 'b'] 500 0 pickNone "h").stateD c6State)
    (by with_unfolding_all rfl)

/-- C7 counterexample: a solo peer's `im_ready` injects the computer
opponent and then invokes the start logic even though its identifier is
not the lexicographic minimum of the final player list. -/
theorem im_ready_noninitiator_counterexample :
    (im_ready c7State).2 = true ∧
    startCond (im_ready c7State).1 ∧
    (im_ready c7State).1.own_identifier ≠ minString (im_ready c7State).1.players := by
  with_unfolding_all decide

/-- C7 (amended): `notify_ready` invokes the start logic iff the start
condition holds and the peer is the lexicographic minimum of the
players; `im_ready` also invokes it whenever the computer opponent is
among the players, minimum or not. -/
theorem start_invocation_characterization (s : GameState) (pid : String) :
    ((notify_ready s pid).2 = true ↔
      startCond (notify_ready s pid).1 ∧
        s.own_identifier = minString (notify_ready s pid).1.players) ∧
    ((im_ready s).2 = true ↔
      startCond (im_ready s).1 ∧
        (s.own_identifier = minString (im_ready s).1.players ∨
          "computer" ∈ (im_ready s).1.players)) := by
  constructor
  · unfold notify_ready
    dsimp only
    simp only [Bool.and_eq_true, decide_eq_true_eq]
  · unfold im_ready
    dsimp only
    simp only [Bool.and_eq_true, Bool.or_eq_true, decide_eq_true_eq]

/-- C8 counterexample: the `'*'` combo key maps to two pad columns, not
three. -/
theorem pad_columns_counterexample : (dget PAD_COLUMNS '*' []).length ≠ 3 := by
  decide

/-- C8 (amended): `'*'` has two columns while `'0'` and `'#'` have
three.  With a present pad: an empty pad still 404s (Python truthiness
of `if not my_pad`), and a non-empty pad is rejected with "Combo not
ready." exactly when some column of the key's set lacks charge. -/
theorem combo_columns_and_readiness_amended :
    (dget PAD_COLUMNS '*' []).length = 2 ∧
    (dget PAD_COLUMNS '0' []).length = 3 ∧
    (dget PAD_COLUMNS '#' []).length = 3 ∧
    ∀ (s : GameState) (key : Char) (o : String) (pad : List (Char × Nat)),
      key ∈ (['*', '0', '#'] : List Char) →
      dget? s.player_phone_pads s.own_identifier = some pad →
      (pad = [] → trigger_combo s key o = ComboResult.padNotFound) ∧
      (pad ≠ [] →
        (trigger_combo s key o ≠ ComboResult.notReady ↔
          ∀ num ∈ dget PAD_COLUMNS key [], 1 ≤ dget pad num 0)) := by
  refine ⟨by decide, by decide, by decide, ?_⟩
  intro s key o pad hkey hpad
  have hsome : (dget? PAD_COLUMNS key).isNone = false := by
    fin_cases hkey <;> decide
  have hiff : (dget PAD_COLUMNS key []).all (fun num => decide (1 ≤ dget pad num 0)) = true ↔
      ∀ num ∈ dget PAD_COLUMNS key [], 1 ≤ dget pad num 0 := by
    simp [List.all_eq_true]
  unfold trigger_combo
  dsimp only
  rw [if_neg (show ¬ ((dget? PAD_COLUMNS key).isNone = true) by simp [hsome])]
  rw [hpad]
  dsimp only
  constructor
  · intro hempty
    subst hempty
    rfl
  · intro hne
    have hne' : pad.isEmpty = false := by
      cases pad with
      | nil => exact absurd rfl hne
      | cons a t => rfl
    rw [if_neg (show ¬ (pad.isEmpty = true) by simp [hne'])]
    by_cases hready :
        (dget PAD_COLUMNS key []).all (fun num => decide (1 ≤ dget pad num 0)) = true
    · rw [if_neg (not_not_intro hready)]
      constructor
      · intro _
        exact hiff.mp hready
      · intro _
        split
        · intro hcon
          exact ComboResult.noConfusion hcon
        · intro hcon
          exact ComboResult.noConfusion hcon
    · rw [if_pos hready]
      constructor
      · intro hcon
        exact absurd rfl hcon
      · intro hall
        exact absurd (hiff.mpr hall) hready

/-- C8 witness: the readiness equivalence applied on a charged,
non-empty pad. -/
theorem combo_columns_and_readiness_amended_witness :
    (('*' : Char) ∈ (['*', '0', '#'] : List Char)) ∧
    (dget? c8State.player_phone_pads c8State.own_identifier = some c8Pad) ∧
    c8Pad ≠ [] ∧
    (trigger_combo c8State '*' "h" ≠ ComboResult.notReady ↔
      ∀ num ∈ dget PAD_COLUMNS '*' [], 1 ≤ dget c8Pad num 0) :=
  ⟨by decide, by with_unfolding_all decide, by decide,
   (combo_columns_and_readiness_amended.2.2.2 c8State '*' "h" c8Pad (by decide)
     (by with_unfolding_all decide)).2 (by decide)⟩

/-- C9 counterexample: a `register` merge with a lower incoming count
overwrites and decreases `letter_curse_counts['a']` from 2 to 0. -/
theorem register_lowers_curse_count_counterexample :
    dget (register c9State c9Payload).letter_curse_counts 'a' 0 <
      dget c9State.letter_curse_counts 'a' 0 := by
  with_unfolding_all decide

/-- C9 (amended): within a single `pass_ball` request the curse counts
are monotone on every surviving outcome (HTTP error or committed turn);
the dead-letter loss runs the in-request `game_over` full reset, which
clears `letter_curse_counts` entirely, and the cross-peer `register`
merge can lower an individual count. -/
theorem curse_counts_monotone_amended (s : GameState) (w : List Char) (cts now : ℚ)
    (pick : List MissionId → Option MissionId) (o : String) :
    PBResult.survivorStates
      (fun t => ∀ x : Char, dget s.letter_curse_counts x 0 ≤ dget t.letter_curse_counts x 0)
      (pass_ball s w cts now pick o) ∧
    (∀ st, pass_ball s w cts now pick o = .deadLetterLoss st →
      st.letter_curse_counts = []) := by
  constructor
  · cases hr : pass_ball s w cts now pick o with
    | err e st =>
      have hl := check_exit_letters s w _ (pass_ball_err_cases s w cts now pick o e st hr)
      dsimp only [PBExit.state] at hl
      intro x
      rw [hl.2.2]
    | deadLetterLoss st => trivial
    | ok s' =>
      obtain ⟨s2, l, hck, hcm⟩ := pass_ball_ok_cases s w cts now pick o s' hr
      obtain ⟨hs2, -, -⟩ := check_ok_fields s w _ hck
      intro x
      have h2 := commit_lcc_mono s2 w l cts now pick o s' hcm x
      dsimp only at hs2
      rw [hs2] at h2
      exact h2
    | crash => trivial
  · intro st hst
    obtain ⟨s0, hck, hgo⟩ := pass_ball_dead_cases s w cts now pick o st hst
    subst hgo
    exact game_over_counts s0 s0.own_identifier (check_dead_word s w s0 hck)

/-- C9 witness: a concrete dead-letter pass-ball ends with the counts
cleared by the in-request reset. -/
theorem curse_counts_monotone_amended_witness :
    ((pass_ball c9WitnessState ['a', 'b'] 500 0 pickNone "h").stateD
        c9WitnessState).letter_curse_counts = [] :=
  (curse_counts_monotone_amended c9WitnessState ['a', 'b'] 500 0 pickNone "h").2
    ((pass_ball c9WitnessState ['a', 'b'] 500 0 pickNone "h").stateD c9WitnessState)
    (by with_unfolding_all rfl)

/-- C10 counterexample: with an empty history, `end_turn` with
`mirror_move = true` is not total — after the harmless mirror branch the
payload build reads `history[-1]` and fails on the out-of-range
access. -/
theorem end_turn_empty_history_counterexample :
    c10State.history.length ≤ 1 ∧
    end_turn c10State "h" 5000 [] [] false true "h" = none := by
  with_unfolding_all decide

/-- C10 (amended): with exactly one history entry, the mirror branch
pops nothing, leaves `current_word` unchanged and elects the current
player, and the whole `end_turn` succeeds. -/
theorem end_turn_mirror_single_amended (s : GameState) (cur : String) (t : Int)
    (ni : List Char) (mods : List Modifier) (r : Bool) (o : String)
    (hlen : s.history.length = 1) :
    endTurnElect s cur r true o = some (s, cur) ∧
    (end_turn s cur t ni mods r true o).isSome := by
  have hshort : ¬ 1 < s.history.length := by omega
  have he := elect_mirror_short s cur r o hshort
  refine ⟨he, ?_⟩
  unfold end_turn
  rw [he]
  dsimp only
  obtain ⟨a, ha⟩ : ∃ a, s.history = [a] := by
    cases hh : s.history with
    | nil =>
      rw [hh] at hlen
      exact absurd hlen (by decide)
    | cons x xs =>
      cases xs with
      | nil => exact ⟨x, rfl⟩
      | cons y ys =>
        rw [hh] at hlen
        simp only [List.length_cons] at hlen
        omega
  unfold endTurnUpdates
  dsimp only
  rw [ha]
  with_unfolding_all rfl

/-- C10 witness at a one-entry history. -/
theorem end_turn_mirror_single_amended_witness :
    endTurnElect c10WitnessState "h" false true "h" = some (c10WitnessState, "h") ∧
    (end_turn c10WitnessState "h" 5000 [] [] false true "h").isSome :=
  end_turn_mirror_single_amended c10WitnessState "h" 5000 [] [] false "h"
    (by with_unfolding_all decide)

end NWPP
